import Mathlib

/-!
# xlib_vulkan: a verification development for `engine.c`

A shallow embedding of the decision logic and the call protocol of
`src/engine.c` (a Vulkan triangle renderer on an Xlib window), and theorems
about it.

Conventions of the embedding.

* The Vulkan driver is the environment.  Every value the driver hands back
  (a `VkResult`, an enumerated list, an acquired image index) is an input of
  the embedded function.
* An `_init` function returns an `Except Fatal`: its result, or the exit it took
  (`exit(1)`), named after the message it prints.
* `engine_draw` returns a `Run`: the list of calls it issued, in order, each with
  the status the driver returned, and either the engine it leaves or the exit
  it took.
* `uint32_t` values are natural numbers; where the source compares against a
  sentinel (`0xFFFFFFFF`, `UINT32_MAX`) the same constant is used.
* `float`/`double` arithmetic of the geometry block is idealised as exact
  arithmetic in a field `F`, with `sinf` and `cosf` taken as parameters.
-/

namespace XlibVulkan

/-! ## Status codes and fatal exits -/

/-- Status code returned by the driver (`VkResult`, an `int` enum). -/
abbrev VkResult := Int

/-- The success status, `VK_SUCCESS = 0`. -/
def VK_SUCCESS : VkResult := 0

/-- Window width, `#define WIDTH 600`. -/
def WIDTH : Nat := 600

/-- Window height, `#define HEIGHT 600`. -/
def HEIGHT : Nat := 600

/-- The constant `UINT32_MAX`. -/
def UINT32_MAX : Nat := 0xFFFFFFFF

/-- Names of the driver entry points whose status the source checks or could check. -/
inductive Api
  | vkCreateInstance
  | vkCreateXlibSurfaceKHR
  | vkEnumeratePhysicalDevices
  | vkGetPhysicalDeviceSurfaceSupportKHR
  | vkCreateDevice
  | vkCreateBuffer
  | vkAllocateMemory
  | vkBindBufferMemory
  | vkMapMemory
  | vkGetPhysicalDeviceSurfaceFormatsKHR
  | vkGetPhysicalDeviceSurfacePresentModesKHR
  | vkGetPhysicalDeviceSurfaceCapabilitiesKHR
  | vkCreateSwapchainKHR
  | vkGetSwapchainImagesKHR
  | vkCreateImageView
  | vkCreateRenderPass
  | vkCreateFramebuffer
  | vkCreateCommandPool
  | vkAllocateCommandBuffers
  | vkCreateFence
  | vkCreateSemaphore
  | vkCreateShaderModule
  | vkCreatePipelineLayout
  | vkCreateGraphicsPipelines
  | vkWaitForFences
  | vkResetFences
  | vkAcquireNextImageKHR
  | vkBeginCommandBuffer
  | vkEndCommandBuffer
  | vkQueueSubmit
  | vkQueuePresentKHR
  deriving DecidableEq, Repr

/-- The exit points of the program: every one of them is an `exit(1)`. -/
inductive Fatal
  /-- The `exit(1)` inside `VK_CHECK(expr)`, for the call and the status it returned. -/
  | vk_check (call : Api) (result : VkResult)
  /-- Message `e->phys_device == VK_NULL_HANDLE`. -/
  | phys_device_null
  /-- Message `e->graphics_queue_family == UINT32_MAX`. -/
  | graphics_queue_family_max
  /-- Message `Unable to find memory type`. -/
  | no_memory_type
  /-- Message `i == format_count`. -/
  | format_not_found
  /-- Message `surface_capabilities.maxImageCount < 2 && surface_capabilities.maxImageCount != 0`. -/
  | max_image_count
  /-- Message `Failed to open file`. -/
  | open_file
  /-- Message `Invalid SPIR-V code`. -/
  | invalid_spirv
  /-- Message `Failed to allocate memory`. -/
  | alloc_failed
  deriving DecidableEq, Repr

/-- The macro `VK_CHECK(expr)`: exit when the status is not `VK_SUCCESS`. -/
def VK_CHECK (call : Api) (result : VkResult) : Except Fatal Unit :=
  if result ≠ VK_SUCCESS then Except.error (Fatal.vk_check call result) else Except.ok ()

/-! ## Objects of the engine -/

/-- A two-dimensional extent, `VkExtent2D`. -/
structure VkExtent2D where
  width : Nat
  height : Nat
  deriving DecidableEq, Repr

/-- The three synchronisation objects owned by the engine. -/
inductive SyncObj
  /-- Field `e->render_fence`. -/
  | render_fence
  /-- Field `e->present_sema`, the image-acquired semaphore. -/
  | present_sema
  /-- Field `e->render_sema`, the render-complete semaphore. -/
  | render_sema
  deriving DecidableEq, Repr

/-- What `vkCreateFramebuffer` is given: the slot of the image view it attaches
(`pAttachments = &e->swapchain_image_views[i]`) and its size. -/
structure Framebuffer where
  attachment : Nat
  width : Nat
  height : Nat
  layers : Nat
  deriving DecidableEq, Repr

/-- The fields of `Engine` that the embedded functions read or write. -/
structure Engine (F : Type) where
  window : VkExtent2D
  phys_device : Nat
  graphics_queue_family : Nat
  swapchain_image_format : Nat
  swapchain_image_count : Nat
  swapchain_image_views : List Nat
  framebuffers : List Framebuffer
  mapped_data : List F

/-! ## Device selection: `vulkan_init` -/

/-- The flag `VK_QUEUE_GRAPHICS_BIT`. -/
def VK_QUEUE_GRAPHICS_BIT : Nat := 0x1

/-- One queue family of a physical device: its `queueFlags`, and what
`vkGetPhysicalDeviceSurfaceSupportKHR` returns for it and the surface (the
status, and the value written to `supported`). -/
structure QueueFamily where
  queueFlags : Nat
  surface_support_ret : VkResult
  supported : Bool
  deriving DecidableEq, Repr

/-- An enumerated physical device, with its queue families in index order. -/
structure PhysicalDevice where
  queue_families : List QueueFamily
  deriving DecidableEq, Repr

/-- The query `vkGetPhysicalDeviceSurfaceSupportKHR(phys_devices[i], 0, ...)` of the
device loop: status and `supported` for queue family 0.  For a device without
queue families `supported` keeps its initial `VK_FALSE`. -/
def surface_support_family0 (d : PhysicalDevice) : VkResult × Bool :=
  match d.queue_families with
  | [] => (VK_SUCCESS, false)
  | q :: _ => (q.surface_support_ret, q.supported)

/-- The device loop of `vulkan_init` (lines 66-75), from index `i` on: the index of
the chosen device, or `none` while `e->phys_device` is still `VK_NULL_HANDLE`. -/
def select_phys_device : List PhysicalDevice → Nat → Except Fatal (Option Nat)
  | [], _ => Except.ok none
  | d :: rest, i =>
    if (surface_support_family0 d).1 ≠ VK_SUCCESS then
      Except.error (Fatal.vk_check Api.vkGetPhysicalDeviceSurfaceSupportKHR
        (surface_support_family0 d).1)
    else if (surface_support_family0 d).2 = true then Except.ok (some i)
    else select_phys_device rest (i + 1)

/-- The queue-family loop of `vulkan_init` (lines 95-104), from index `i` on, with
the current value of `e->graphics_queue_family`. -/
def select_queue_family : List QueueFamily → Nat → Nat → Except Fatal Nat
  | [], _, graphics_queue_family => Except.ok graphics_queue_family
  | q :: rest, i, graphics_queue_family =>
    if q.queueFlags &&& VK_QUEUE_GRAPHICS_BIT ≠ 0 then
      if q.surface_support_ret ≠ VK_SUCCESS then
        Except.error (Fatal.vk_check Api.vkGetPhysicalDeviceSurfaceSupportKHR q.surface_support_ret)
      else if q.supported = true then Except.ok i
      else select_queue_family rest (i + 1) graphics_queue_family
    else select_queue_family rest (i + 1) graphics_queue_family

/-- What the driver returns to `vulkan_init`. -/
structure VulkanEnv where
  vkCreateInstance : VkResult
  vkCreateXlibSurfaceKHR : VkResult
  /-- Status of the first `vkEnumeratePhysicalDevices` call, which asks for the count. -/
  vkEnumeratePhysicalDevices_count : VkResult
  vkEnumeratePhysicalDevices : VkResult
  phys_devices : List PhysicalDevice
  vkCreateDevice : VkResult
  deriving DecidableEq, Repr

/-- The function `vulkan_init` (lines 22-149): the index of the chosen physical
device in enumeration order and the chosen queue family index. -/
def vulkan_init (env : VulkanEnv) : Except Fatal (Nat × Nat) :=
  if env.vkCreateInstance ≠ VK_SUCCESS then
    Except.error (Fatal.vk_check Api.vkCreateInstance env.vkCreateInstance) else
  if env.vkCreateXlibSurfaceKHR ≠ VK_SUCCESS then
    Except.error (Fatal.vk_check Api.vkCreateXlibSurfaceKHR env.vkCreateXlibSurfaceKHR) else
  if env.vkEnumeratePhysicalDevices_count ≠ VK_SUCCESS then
    Except.error (Fatal.vk_check Api.vkEnumeratePhysicalDevices
      env.vkEnumeratePhysicalDevices_count) else
  if env.vkEnumeratePhysicalDevices ≠ VK_SUCCESS then
    Except.error (Fatal.vk_check Api.vkEnumeratePhysicalDevices env.vkEnumeratePhysicalDevices) else
  match select_phys_device env.phys_devices 0 with
  | Except.error f => Except.error f
  | Except.ok none => Except.error Fatal.phys_device_null
  | Except.ok (some phys_device) =>
    let queue_families :=
      match env.phys_devices[phys_device]? with
      | some d => d.queue_families
      | none => []
    match select_queue_family queue_families 0 UINT32_MAX with
    | Except.error f => Except.error f
    | Except.ok graphics_queue_family =>
      if graphics_queue_family = UINT32_MAX then Except.error Fatal.graphics_queue_family_max else
      if env.vkCreateDevice ≠ VK_SUCCESS then
        Except.error (Fatal.vk_check Api.vkCreateDevice env.vkCreateDevice) else
      Except.ok (phys_device, graphics_queue_family)

/-! ## Memory type selection: `memory_init` -/

/-- The flag `VK_MEMORY_PROPERTY_HOST_VISIBLE_BIT`. -/
def VK_MEMORY_PROPERTY_HOST_VISIBLE_BIT : Nat := 0x2

/-- The flag `VK_MEMORY_PROPERTY_HOST_COHERENT_BIT`. -/
def VK_MEMORY_PROPERTY_HOST_COHERENT_BIT : Nat := 0x4

/-- A memory type, `VkMemoryType`. -/
structure VkMemoryType where
  propertyFlags : Nat
  heapIndex : Nat
  deriving DecidableEq, Repr

/-- A memory heap, `VkMemoryHeap`. -/
structure VkMemoryHeap where
  size : Nat
  flags : Nat
  deriving DecidableEq, Repr

/-- The memory types and heaps of the device, `VkPhysicalDeviceMemoryProperties`;
`memoryTypeCount` and `memoryHeapCount` are the lengths of the lists. -/
structure VkPhysicalDeviceMemoryProperties where
  memoryTypes : List VkMemoryType
  memoryHeaps : List VkMemoryHeap
  deriving DecidableEq, Repr

/-- The read `mem_prop.memoryHeaps[mem_type.heapIndex].size`. -/
def heap_size_of (mem_prop : VkPhysicalDeviceMemoryProperties) (mem_type : VkMemoryType) : Nat :=
  match mem_prop.memoryHeaps[mem_type.heapIndex]? with
  | some heap => heap.size
  | none => 0

/-- The condition of the `if` in the memory type loop (lines 196-199). -/
def memory_type_accepted (memoryTypeBits : Nat) (mem_prop : VkPhysicalDeviceMemoryProperties)
    (i : Nat) (mem_type : VkMemoryType) (best_memory_size : Nat) : Bool :=
  (memoryTypeBits &&& (1 <<< i) != 0) &&
  (mem_type.propertyFlags &&& VK_MEMORY_PROPERTY_HOST_VISIBLE_BIT != 0) &&
  (mem_type.propertyFlags &&& VK_MEMORY_PROPERTY_HOST_COHERENT_BIT != 0) &&
  decide (heap_size_of mem_prop mem_type > best_memory_size)

/-- The memory type loop of `memory_init` (lines 193-204), from index `i` on, with
the current `mem_type_index` and `best_memory_size`; the loop leaves by `break`
at the first accepted type. -/
def select_memory_type (memoryTypeBits : Nat) (mem_prop : VkPhysicalDeviceMemoryProperties) :
    List VkMemoryType → Nat → Nat → Nat → Nat × Nat
  | [], _, mem_type_index, best_memory_size => (mem_type_index, best_memory_size)
  | mem_type :: rest, i, mem_type_index, best_memory_size =>
    if memory_type_accepted memoryTypeBits mem_prop i mem_type best_memory_size = true then
      (i, heap_size_of mem_prop mem_type)
    else select_memory_type memoryTypeBits mem_prop rest (i + 1) mem_type_index best_memory_size

/-- What the driver returns to `memory_init`. -/
structure MemoryEnv where
  vkCreateBuffer : VkResult
  /-- Field `mem_req.size`. -/
  mem_req_size : Nat
  /-- Field `mem_req.memoryTypeBits`. -/
  memoryTypeBits : Nat
  mem_prop : VkPhysicalDeviceMemoryProperties
  vkAllocateMemory : VkResult
  vkBindBufferMemory : VkResult
  vkMapMemory : VkResult
  deriving DecidableEq, Repr

/-- The allocation `memory_init` asks for: `mem_alloc_info`, and the mapped size. -/
structure MemoryChoice where
  memoryTypeIndex : Nat
  allocationSize : Nat
  mapped_size : Nat
  deriving DecidableEq, Repr

/-- The function `memory_init` (lines 157-229). -/
def memory_init (env : MemoryEnv) : Except Fatal MemoryChoice :=
  let buffer_ci_size := 2 * 1024
  if env.vkCreateBuffer ≠ VK_SUCCESS then
    Except.error (Fatal.vk_check Api.vkCreateBuffer env.vkCreateBuffer) else
  let mem_type_index :=
    (select_memory_type env.memoryTypeBits env.mem_prop env.mem_prop.memoryTypes 0 UINT32_MAX 0).1
  if mem_type_index = UINT32_MAX then Except.error Fatal.no_memory_type else
  if env.vkAllocateMemory ≠ VK_SUCCESS then
    Except.error (Fatal.vk_check Api.vkAllocateMemory env.vkAllocateMemory) else
  if env.vkBindBufferMemory ≠ VK_SUCCESS then
    Except.error (Fatal.vk_check Api.vkBindBufferMemory env.vkBindBufferMemory) else
  if env.vkMapMemory ≠ VK_SUCCESS then
    Except.error (Fatal.vk_check Api.vkMapMemory env.vkMapMemory) else
  Except.ok ⟨mem_type_index, env.mem_req_size, buffer_ci_size⟩

/-! ## Swapchain: `swapchain_init` -/

/-- The format `VK_FORMAT_B8G8R8A8_UNORM`. -/
def VK_FORMAT_B8G8R8A8_UNORM : Nat := 44

/-- The colour space `VK_COLOR_SPACE_SRGB_NONLINEAR_KHR`. -/
def VK_COLOR_SPACE_SRGB_NONLINEAR_KHR : Nat := 0

/-- The present mode `VK_PRESENT_MODE_FIFO_KHR`. -/
def VK_PRESENT_MODE_FIFO_KHR : Nat := 2

/-- A surface format, `VkSurfaceFormatKHR`. -/
structure VkSurfaceFormatKHR where
  format : Nat
  colorSpace : Nat
  deriving DecidableEq, Repr

/-- The fields of `VkSurfaceCapabilitiesKHR` that `swapchain_init` reads. -/
structure VkSurfaceCapabilitiesKHR where
  currentExtent : VkExtent2D
  maxImageCount : Nat
  currentTransform : Nat
  deriving DecidableEq, Repr

/-- The fields of `swapchain_ci` that depend on the surface. -/
structure VkSwapchainCreateInfoKHR where
  minImageCount : Nat
  imageFormat : Nat
  imageColorSpace : Nat
  imageExtent : VkExtent2D
  imageArrayLayers : Nat
  preTransform : Nat
  presentMode : Nat
  deriving DecidableEq, Repr

/-- The format loop of `swapchain_init` (lines 248-254), from index `i` on, with the
current content of the local `surface_format`: the final `i` and `surface_format`. -/
def find_surface_format :
    List VkSurfaceFormatKHR → Nat → VkSurfaceFormatKHR → Nat × VkSurfaceFormatKHR
  | [], i, surface_format => (i, surface_format)
  | f :: rest, i, surface_format =>
    if f.format = VK_FORMAT_B8G8R8A8_UNORM ∧ f.colorSpace = VK_COLOR_SPACE_SRGB_NONLINEAR_KHR then
      (i, f)
    else find_surface_format rest (i + 1) surface_format

/-- The present mode loop of `swapchain_init` (lines 278-283), with the current
value of `present_mode`. -/
def find_present_mode (desired : Nat) : List Nat → Nat → Nat
  | [], present_mode => present_mode
  | m :: rest, present_mode =>
    if m = desired then desired else find_present_mode desired rest present_mode

/-- The image view loop of `swapchain_init` (lines 353-356): `k` iterations from
index `i` on.  A view is denoted by the index of the image it is a view of. -/
def create_image_views (vkCreateImageView : Nat → VkResult) : Nat → Nat → Except Fatal (List Nat)
  | 0, _ => Except.ok []
  | k + 1, i =>
    if vkCreateImageView i ≠ VK_SUCCESS then
      Except.error (Fatal.vk_check Api.vkCreateImageView (vkCreateImageView i))
    else
      match create_image_views vkCreateImageView k (i + 1) with
      | Except.error f => Except.error f
      | Except.ok views => Except.ok (i :: views)

/-- What the driver returns to `swapchain_init`. -/
structure SwapchainEnv where
  /-- Status of the first `vkGetPhysicalDeviceSurfaceFormatsKHR` call (the count). -/
  vkGetPhysicalDeviceSurfaceFormatsKHR_count : VkResult
  vkGetPhysicalDeviceSurfaceFormatsKHR : VkResult
  surface_formats : List VkSurfaceFormatKHR
  /-- Content of the uninitialised local `surface_format`. -/
  surface_format_uninit : VkSurfaceFormatKHR
  /-- Status of the first `vkGetPhysicalDeviceSurfacePresentModesKHR` call (the count). -/
  vkGetPhysicalDeviceSurfacePresentModesKHR_count : VkResult
  vkGetPhysicalDeviceSurfacePresentModesKHR : VkResult
  present_modes : List Nat
  vkGetPhysicalDeviceSurfaceCapabilitiesKHR : VkResult
  surface_capabilities : VkSurfaceCapabilitiesKHR
  vkCreateSwapchainKHR : VkResult
  /-- Status of the first `vkGetSwapchainImagesKHR` call (the count). -/
  vkGetSwapchainImagesKHR_count : VkResult
  vkGetSwapchainImagesKHR : VkResult
  /-- The image count the driver reports for the created swapchain. -/
  swapchain_image_count : Nat
  /-- Status of `vkCreateImageView` for image `i`. -/
  vkCreateImageView : Nat → VkResult

/-- The extent block of `swapchain_init` (lines 292-296). -/
def choose_swapchain_extent (currentExtent : VkExtent2D) : VkExtent2D :=
  if currentExtent.width = 0xFFFFFFFF ∧ currentExtent.height = 0xFFFFFFFF then
    { width := WIDTH, height := HEIGHT }
  else currentExtent

/-- The part of `swapchain_init` before the call of `vkCreateSwapchainKHR` (lines
241-322): the queries, the checks, and the `swapchain_ci` they lead to. -/
def swapchain_create_info (env : SwapchainEnv) : Except Fatal VkSwapchainCreateInfoKHR :=
  if env.vkGetPhysicalDeviceSurfaceFormatsKHR_count ≠ VK_SUCCESS then
    Except.error (Fatal.vk_check Api.vkGetPhysicalDeviceSurfaceFormatsKHR
      env.vkGetPhysicalDeviceSurfaceFormatsKHR_count) else
  if env.vkGetPhysicalDeviceSurfaceFormatsKHR ≠ VK_SUCCESS then
    Except.error (Fatal.vk_check Api.vkGetPhysicalDeviceSurfaceFormatsKHR
      env.vkGetPhysicalDeviceSurfaceFormatsKHR) else
  let format_count := env.surface_formats.length
  let found := find_surface_format env.surface_formats 0 env.surface_format_uninit
  let surface_format := found.2
  if found.1 = format_count then Except.error Fatal.format_not_found else
  if env.vkGetPhysicalDeviceSurfacePresentModesKHR_count ≠ VK_SUCCESS then
    Except.error (Fatal.vk_check Api.vkGetPhysicalDeviceSurfacePresentModesKHR
      env.vkGetPhysicalDeviceSurfacePresentModesKHR_count) else
  if env.vkGetPhysicalDeviceSurfacePresentModesKHR ≠ VK_SUCCESS then
    Except.error (Fatal.vk_check Api.vkGetPhysicalDeviceSurfacePresentModesKHR
      env.vkGetPhysicalDeviceSurfacePresentModesKHR) else
  let present_mode :=
    find_present_mode VK_PRESENT_MODE_FIFO_KHR env.present_modes VK_PRESENT_MODE_FIFO_KHR
  if env.vkGetPhysicalDeviceSurfaceCapabilitiesKHR ≠ VK_SUCCESS then
    Except.error (Fatal.vk_check Api.vkGetPhysicalDeviceSurfaceCapabilitiesKHR
      env.vkGetPhysicalDeviceSurfaceCapabilitiesKHR) else
  let surface_capabilities := env.surface_capabilities
  let swapchain_extent := choose_swapchain_extent surface_capabilities.currentExtent
  if surface_capabilities.maxImageCount < 2 ∧ surface_capabilities.maxImageCount ≠ 0 then
    Except.error Fatal.max_image_count else
  let image_count := 2
  Except.ok
    { minImageCount := image_count
      imageFormat := surface_format.format
      imageColorSpace := surface_format.colorSpace
      imageExtent := swapchain_extent
      imageArrayLayers := 1
      preTransform := surface_capabilities.currentTransform
      presentMode := present_mode }

/-- The function `swapchain_init` (lines 239-358): the `swapchain_ci` handed to
`vkCreateSwapchainKHR` and the engine with its swapchain fields set. -/
def swapchain_init {F : Type} (e : Engine F) (env : SwapchainEnv) :
    Except Fatal (VkSwapchainCreateInfoKHR × Engine F) :=
  match swapchain_create_info env with
  | Except.error f => Except.error f
  | Except.ok swapchain_ci =>
  if env.vkCreateSwapchainKHR ≠ VK_SUCCESS then
    Except.error (Fatal.vk_check Api.vkCreateSwapchainKHR env.vkCreateSwapchainKHR) else
  if env.vkGetSwapchainImagesKHR_count ≠ VK_SUCCESS then
    Except.error (Fatal.vk_check Api.vkGetSwapchainImagesKHR env.vkGetSwapchainImagesKHR_count) else
  if env.vkGetSwapchainImagesKHR ≠ VK_SUCCESS then
    Except.error (Fatal.vk_check Api.vkGetSwapchainImagesKHR env.vkGetSwapchainImagesKHR) else
  match create_image_views env.vkCreateImageView env.swapchain_image_count 0 with
  | Except.error f => Except.error f
  | Except.ok views =>
    Except.ok (swapchain_ci,
      { e with swapchain_image_format := swapchain_ci.imageFormat
               swapchain_image_count := env.swapchain_image_count
               swapchain_image_views := views })

/-! ## Render pass and framebuffers -/

/-- The function `renderpass_init` (lines 372-421): the format of the single colour
attachment of the render pass. -/
def renderpass_init {F : Type} (e : Engine F) (vkCreateRenderPass : VkResult) : Except Fatal Nat :=
  let color_attach_desc_format := e.swapchain_image_format
  if vkCreateRenderPass ≠ VK_SUCCESS then
    Except.error (Fatal.vk_check Api.vkCreateRenderPass vkCreateRenderPass) else
  Except.ok color_attach_desc_format

/-- The loop of `framebuffers_init` (lines 442-446): `k` iterations from index `i` on. -/
def create_framebuffers (window : VkExtent2D) (vkCreateFramebuffer : Nat → VkResult) :
    Nat → Nat → Except Fatal (List Framebuffer)
  | 0, _ => Except.ok []
  | k + 1, i =>
    if vkCreateFramebuffer i ≠ VK_SUCCESS then
      Except.error (Fatal.vk_check Api.vkCreateFramebuffer (vkCreateFramebuffer i))
    else
      match create_framebuffers window vkCreateFramebuffer k (i + 1) with
      | Except.error f => Except.error f
      | Except.ok fbs =>
        Except.ok ({ attachment := i, width := window.width, height := window.height,
                     layers := 1 } :: fbs)

/-- The function `framebuffers_init` (lines 428-447). -/
def framebuffers_init {F : Type} (e : Engine F) (vkCreateFramebuffer : Nat → VkResult) :
    Except Fatal (Engine F) :=
  match create_framebuffers e.window vkCreateFramebuffer e.swapchain_image_count 0 with
  | Except.error f => Except.error f
  | Except.ok fbs => Except.ok { e with framebuffers := fbs }

/-! ## Command pool, synchronisation objects, pipeline -/

/-- The function `command_pool_init` (lines 458-476). -/
def command_pool_init (vkCreateCommandPool vkAllocateCommandBuffers : VkResult) :
    Except Fatal Unit :=
  if vkCreateCommandPool ≠ VK_SUCCESS then
    Except.error (Fatal.vk_check Api.vkCreateCommandPool vkCreateCommandPool) else
  if vkAllocateCommandBuffers ≠ VK_SUCCESS then
    Except.error (Fatal.vk_check Api.vkAllocateCommandBuffers vkAllocateCommandBuffers) else
  Except.ok ()

/-- The flag `VK_FENCE_CREATE_SIGNALED_BIT`. -/
def VK_FENCE_CREATE_SIGNALED_BIT : Nat := 0x1

/-- What the driver returns to `sync_structures_init`. -/
structure SyncEnv where
  vkCreateFence : VkResult
  /-- Status of `vkCreateSemaphore` for `e->present_sema`. -/
  vkCreateSemaphore_present : VkResult
  /-- Status of `vkCreateSemaphore` for `e->render_sema`. -/
  vkCreateSemaphore_render : VkResult
  deriving DecidableEq, Repr

/-- The function `sync_structures_init` (lines 485-500): the `flags` of the
`fence_ci` the fence `e->render_fence` is created with. -/
def sync_structures_init (env : SyncEnv) : Except Fatal Nat :=
  let fence_ci_flags := VK_FENCE_CREATE_SIGNALED_BIT
  if env.vkCreateFence ≠ VK_SUCCESS then
    Except.error (Fatal.vk_check Api.vkCreateFence env.vkCreateFence) else
  if env.vkCreateSemaphore_present ≠ VK_SUCCESS then
    Except.error (Fatal.vk_check Api.vkCreateSemaphore env.vkCreateSemaphore_present) else
  if env.vkCreateSemaphore_render ≠ VK_SUCCESS then
    Except.error (Fatal.vk_check Api.vkCreateSemaphore env.vkCreateSemaphore_render) else
  Except.ok fence_ci_flags

/-- A shader file as `load_shader_module` meets it: the bytes of the file (`none`
when `fopen` returns `NULL`), whether `malloc` returns a buffer, and the status
of `vkCreateShaderModule`. -/
structure ShaderFile where
  contents : Option (List Nat)
  malloc_ok : Bool
  vkCreateShaderModule : VkResult
  deriving DecidableEq, Repr

/-- The fields `codeSize` and `pCode` of `shader_module_ci`. -/
structure VkShaderModuleCreateInfo where
  codeSize : Nat
  pCode : List Nat
  deriving DecidableEq, Repr

/-- The function `load_shader_module` (lines 510-550). -/
def load_shader_module (file : ShaderFile) : Except Fatal VkShaderModuleCreateInfo :=
  match file.contents with
  | none => Except.error Fatal.open_file
  | some bytes =>
    let filesize := bytes.length
    if filesize % 4 ≠ 0 then Except.error Fatal.invalid_spirv else
    if file.malloc_ok = false then Except.error Fatal.alloc_failed else
    let buffer := bytes.take filesize
    let shader_module_ci : VkShaderModuleCreateInfo := { codeSize := filesize, pCode := buffer }
    if file.vkCreateShaderModule ≠ VK_SUCCESS then
      Except.error (Fatal.vk_check Api.vkCreateShaderModule file.vkCreateShaderModule) else
    Except.ok shader_module_ci

/-- What `pipelines_init` meets: the two shader files and the driver's statuses. -/
structure PipelinesEnv where
  /-- The file `triangle.frag.spv`. -/
  triangle_frag : ShaderFile
  /-- The file `triangle.vert.spv`. -/
  triangle_vert : ShaderFile
  vkCreatePipelineLayout : VkResult
  vkCreateGraphicsPipelines : VkResult
  deriving DecidableEq, Repr

/-- The function `pipelines_init` (lines 552-698): the extent of the viewport and of
the scissor rectangle the pipeline is created with. -/
def pipelines_init {F : Type} (e : Engine F) (env : PipelinesEnv) : Except Fatal VkExtent2D :=
  match load_shader_module env.triangle_frag with
  | Except.error f => Except.error f
  | Except.ok _ =>
    match load_shader_module env.triangle_vert with
    | Except.error f => Except.error f
    | Except.ok _ =>
      if env.vkCreatePipelineLayout ≠ VK_SUCCESS then
        Except.error (Fatal.vk_check Api.vkCreatePipelineLayout env.vkCreatePipelineLayout) else
      if env.vkCreateGraphicsPipelines ≠ VK_SUCCESS then
        Except.error (Fatal.vk_check Api.vkCreateGraphicsPipelines
          env.vkCreateGraphicsPipelines) else
      Except.ok e.window

/-! ## Construction and teardown: `engine_init`, `engine_deinit` -/

/-- The components of the engine, named after their `_init`/`_deinit` functions. -/
inductive Component
  /-- Functions `vulkan_init`, `vulkan_deinit`: the GraphicsDevice. -/
  | vulkan
  /-- Functions `memory_init`, `memory_deinit`: the GeometryArena. -/
  | memory
  /-- Functions `swapchain_init`, `swapchain_deinit`: the Swapchain. -/
  | swapchain
  /-- Functions `renderpass_init`, `renderpass_deinit`: the render pass of the RenderTargetSet. -/
  | renderpass
  /-- Functions `framebuffers_init`, `framebuffers_deinit`: the framebuffers of the
  RenderTargetSet. -/
  | framebuffers
  /-- Functions `command_pool_init`, `command_pool_deinit`: the CommandExecutor. -/
  | command_pool
  /-- Functions `sync_structures_init`, `sync_structures_deinit`: the SyncGroup. -/
  | sync_structures
  /-- Functions `pipelines_init`, `pipelines_deinit`: the Pipeline. -/
  | pipelines
  deriving DecidableEq, Repr

/-- What the driver and the file system return to `engine_init`. -/
structure EngineEnv (F : Type) where
  vulkan : VulkanEnv
  memory : MemoryEnv
  /-- Content of the mapped memory region right after `vkMapMemory`. -/
  mapped_memory : List F
  swapchain : SwapchainEnv
  vkCreateRenderPass : VkResult
  /-- Status of `vkCreateFramebuffer` for framebuffer `i`. -/
  vkCreateFramebuffer : Nat → VkResult
  vkCreateCommandPool : VkResult
  vkAllocateCommandBuffers : VkResult
  sync : SyncEnv
  pipelines : PipelinesEnv

/-- The component functions entered so far, in order, and how the run ended. -/
structure Steps (α : Type) where
  entered : List Component
  result : Except Fatal α

/-- The function `engine_init` (lines 708-744), on the engine `e` as handed in. -/
def engine_init {F : Type} (e : Engine F) (env : EngineEnv F) : Steps (Engine F) :=
  let e := { e with window := { width := WIDTH, height := HEIGHT } }
  let entered := [Component.vulkan]
  match vulkan_init env.vulkan with
  | Except.error f => ⟨entered, Except.error f⟩
  | Except.ok (phys_device, graphics_queue_family) =>
  let e := { e with phys_device := phys_device, graphics_queue_family := graphics_queue_family }
  let entered := entered ++ [Component.memory]
  match memory_init env.memory with
  | Except.error f => ⟨entered, Except.error f⟩
  | Except.ok _ =>
  let e := { e with mapped_data := env.mapped_memory }
  let entered := entered ++ [Component.swapchain]
  match swapchain_init e env.swapchain with
  | Except.error f => ⟨entered, Except.error f⟩
  | Except.ok (_, e) =>
  let entered := entered ++ [Component.renderpass]
  match renderpass_init e env.vkCreateRenderPass with
  | Except.error f => ⟨entered, Except.error f⟩
  | Except.ok _ =>
  let entered := entered ++ [Component.framebuffers]
  match framebuffers_init e env.vkCreateFramebuffer with
  | Except.error f => ⟨entered, Except.error f⟩
  | Except.ok e =>
  let entered := entered ++ [Component.command_pool]
  match command_pool_init env.vkCreateCommandPool env.vkAllocateCommandBuffers with
  | Except.error f => ⟨entered, Except.error f⟩
  | Except.ok _ =>
  let entered := entered ++ [Component.sync_structures]
  match sync_structures_init env.sync with
  | Except.error f => ⟨entered, Except.error f⟩
  | Except.ok _ =>
  let entered := entered ++ [Component.pipelines]
  match pipelines_init e env.pipelines with
  | Except.error f => ⟨entered, Except.error f⟩
  | Except.ok _ => ⟨entered, Except.ok e⟩

/-- The function `engine_deinit` (lines 746-762): the component `_deinit` functions
it calls, in order.  None of them can exit. -/
def engine_deinit {F : Type} (_e : Engine F) : List Component :=
  [Component.pipelines, Component.sync_structures, Component.command_pool,
   Component.framebuffers, Component.renderpass, Component.swapchain,
   Component.memory, Component.vulkan]

/-! ## The per-frame protocol: `engine_draw` -/

/-- A call issued to the driver during a frame, with the arguments that matter
and, for a status-returning call, the status the driver returned. -/
inductive Call
  | vkWaitForFences (fence : SyncObj) (ret : VkResult)
  | vkResetFences (fence : SyncObj) (ret : VkResult)
  | vkResetCommandBuffer (ret : VkResult)
  | vkAcquireNextImageKHR (semaphore : SyncObj) (ret : VkResult)
  | vkBeginCommandBuffer (ret : VkResult)
  /-- The host write `memcpy(e->mapped_data, vertices, sizeof(vertices))`. -/
  | memcpy_mapped_data (nbytes : Nat)
  | vkCmdBeginRenderPass (framebuffer : Option Framebuffer) (extent : VkExtent2D)
  | vkCmdBindVertexBuffers (offset : Nat)
  | vkCmdBindPipeline
  | vkCmdDraw (vertexCount instanceCount firstVertex firstInstance : Nat)
  | vkCmdEndRenderPass
  | vkEndCommandBuffer (ret : VkResult)
  | vkQueueSubmit (wait signal fence : SyncObj) (ret : VkResult)
  | vkQueuePresentKHR (wait : SyncObj) (imageIndex : Nat) (ret : VkResult)
  deriving DecidableEq, Repr

/-- The calls a function issued, in order, and how it ended. -/
structure Run (α : Type) where
  calls : List Call
  result : Except Fatal α

/-- What the driver returns to the calls of one frame. -/
structure DrawReturns where
  vkWaitForFences : VkResult
  vkResetFences : VkResult
  vkResetCommandBuffer : VkResult
  vkAcquireNextImageKHR : VkResult
  /-- The index `vkAcquireNextImageKHR` writes to `swapchain_image_index`. -/
  swapchain_image_index : Nat
  vkBeginCommandBuffer : VkResult
  vkEndCommandBuffer : VkResult
  vkQueueSubmit : VkResult
  vkQueuePresentKHR : VkResult
  deriving DecidableEq, Repr

/-- The constant `#define PI 3.14159265358979323846`. -/
def PI {F : Type} [Field F] : F := 3.14159265358979323846

/-- The geometry block of `engine_draw` (lines 800-808): the array `vertices`,
six numbers, `x` and `y` of the three vertices in order. -/
def engine_draw_vertices {F : Type} [Field F] (sinf cosf : F → F) (cycle : F) : List F :=
  let mod_cycle := -cycle - 0.5
  let alpha := (mod_cycle) * 2 * PI
  let beta := (mod_cycle + 1.0 / 3.0) * 2 * PI
  let gamma := (mod_cycle + 2.0 / 3.0) * 2 * PI
  [sinf alpha / 2.0, cosf alpha / 2.0,
   sinf beta / 2.0, cosf beta / 2.0,
   sinf gamma / 2.0, cosf gamma / 2.0]

/-- The size in bytes of the array `vertices`: six `float`s. -/
def sizeof_vertices : Nat := 6 * 4

/-- The function `engine_draw` (lines 764-858).  The status of
`vkResetCommandBuffer` is dropped by the source (line 768 has no `VK_CHECK`). -/
def engine_draw {F : Type} [Field F] (sinf cosf : F → F) (e : Engine F) (vk : DrawReturns)
    (cycle : F) : Run (Engine F) :=
  let log := [Call.vkWaitForFences SyncObj.render_fence vk.vkWaitForFences]
  if vk.vkWaitForFences ≠ VK_SUCCESS then
    ⟨log, Except.error (Fatal.vk_check Api.vkWaitForFences vk.vkWaitForFences)⟩ else
  let log := log ++ [Call.vkResetFences SyncObj.render_fence vk.vkResetFences]
  if vk.vkResetFences ≠ VK_SUCCESS then
    ⟨log, Except.error (Fatal.vk_check Api.vkResetFences vk.vkResetFences)⟩ else
  let log := log ++ [Call.vkResetCommandBuffer vk.vkResetCommandBuffer]
  let log := log ++ [Call.vkAcquireNextImageKHR SyncObj.present_sema vk.vkAcquireNextImageKHR]
  if vk.vkAcquireNextImageKHR ≠ VK_SUCCESS then
    ⟨log, Except.error (Fatal.vk_check Api.vkAcquireNextImageKHR vk.vkAcquireNextImageKHR)⟩ else
  let swapchain_image_index := vk.swapchain_image_index
  let log := log ++ [Call.vkBeginCommandBuffer vk.vkBeginCommandBuffer]
  if vk.vkBeginCommandBuffer ≠ VK_SUCCESS then
    ⟨log, Except.error (Fatal.vk_check Api.vkBeginCommandBuffer vk.vkBeginCommandBuffer)⟩ else
  let framebuffer := e.framebuffers[swapchain_image_index]?
  let vertices := engine_draw_vertices sinf cosf cycle
  let log := log ++ [Call.memcpy_mapped_data sizeof_vertices]
  let e := { e with mapped_data := vertices ++ e.mapped_data.drop vertices.length }
  let log := log ++ [Call.vkCmdBeginRenderPass framebuffer e.window]
  let log := log ++ [Call.vkCmdBindVertexBuffers 0]
  let log := log ++ [Call.vkCmdBindPipeline]
  let log := log ++ [Call.vkCmdDraw 3 1 0 0]
  let log := log ++ [Call.vkCmdEndRenderPass]
  let log := log ++ [Call.vkEndCommandBuffer vk.vkEndCommandBuffer]
  if vk.vkEndCommandBuffer ≠ VK_SUCCESS then
    ⟨log, Except.error (Fatal.vk_check Api.vkEndCommandBuffer vk.vkEndCommandBuffer)⟩ else
  let log := log ++ [Call.vkQueueSubmit SyncObj.present_sema SyncObj.render_sema
    SyncObj.render_fence vk.vkQueueSubmit]
  if vk.vkQueueSubmit ≠ VK_SUCCESS then
    ⟨log, Except.error (Fatal.vk_check Api.vkQueueSubmit vk.vkQueueSubmit)⟩ else
  let log := log ++ [Call.vkQueuePresentKHR SyncObj.render_sema swapchain_image_index
    vk.vkQueuePresentKHR]
  if vk.vkQueuePresentKHR ≠ VK_SUCCESS then
    ⟨log, Except.error (Fatal.vk_check Api.vkQueuePresentKHR vk.vkQueuePresentKHR)⟩ else
  ⟨log, Except.ok e⟩

/-- Successive calls of `engine_draw`, one per frame with the driver's returns and
the `cycle` of that frame, as long as no frame exits. -/
def draw_frames {F : Type} [Field F] (sinf cosf : F → F) (e : Engine F) :
    List (DrawReturns × F) → Run (Engine F)
  | [] => ⟨[], Except.ok e⟩
  | (vk, cycle) :: rest =>
    match (engine_draw sinf cosf e vk cycle).result with
    | Except.error f => ⟨(engine_draw sinf cosf e vk cycle).calls, Except.error f⟩
    | Except.ok e1 =>
      ⟨(engine_draw sinf cosf e vk cycle).calls ++ (draw_frames sinf cosf e1 rest).calls,
       (draw_frames sinf cosf e1 rest).result⟩

/-- Every status the driver returns in the frame is `VK_SUCCESS`. -/
def DrawReturns.all_ok (vk : DrawReturns) : Prop :=
  vk.vkWaitForFences = VK_SUCCESS ∧ vk.vkResetFences = VK_SUCCESS ∧
  vk.vkResetCommandBuffer = VK_SUCCESS ∧ vk.vkAcquireNextImageKHR = VK_SUCCESS ∧
  vk.vkBeginCommandBuffer = VK_SUCCESS ∧ vk.vkEndCommandBuffer = VK_SUCCESS ∧
  vk.vkQueueSubmit = VK_SUCCESS ∧ vk.vkQueuePresentKHR = VK_SUCCESS

/-- The calls of a frame that runs to its end, with the statuses the driver returns. -/
def frame_calls {F : Type} (e : Engine F) (vk : DrawReturns) : List Call :=
  [Call.vkWaitForFences SyncObj.render_fence vk.vkWaitForFences,
   Call.vkResetFences SyncObj.render_fence vk.vkResetFences,
   Call.vkResetCommandBuffer vk.vkResetCommandBuffer,
   Call.vkAcquireNextImageKHR SyncObj.present_sema vk.vkAcquireNextImageKHR,
   Call.vkBeginCommandBuffer vk.vkBeginCommandBuffer,
   Call.memcpy_mapped_data sizeof_vertices,
   Call.vkCmdBeginRenderPass e.framebuffers[vk.swapchain_image_index]? e.window,
   Call.vkCmdBindVertexBuffers 0,
   Call.vkCmdBindPipeline,
   Call.vkCmdDraw 3 1 0 0,
   Call.vkCmdEndRenderPass,
   Call.vkEndCommandBuffer vk.vkEndCommandBuffer,
   Call.vkQueueSubmit SyncObj.present_sema SyncObj.render_sema SyncObj.render_fence
     vk.vkQueueSubmit,
   Call.vkQueuePresentKHR SyncObj.render_sema vk.swapchain_image_index vk.vkQueuePresentKHR]

/-- How many calls `engine_draw` issues before it returns or exits. -/
def calls_issued (vk : DrawReturns) : Nat :=
  if vk.vkWaitForFences ≠ VK_SUCCESS then 1
  else if vk.vkResetFences ≠ VK_SUCCESS then 2
  else if vk.vkAcquireNextImageKHR ≠ VK_SUCCESS then 4
  else if vk.vkBeginCommandBuffer ≠ VK_SUCCESS then 5
  else if vk.vkEndCommandBuffer ≠ VK_SUCCESS then 12
  else if vk.vkQueueSubmit ≠ VK_SUCCESS then 13
  else 14

/-! ## Reuse of the command buffer and of the geometry buffer -/

/-- A host reuse of per-frame storage: the reset of the command buffer or the write
into the mapped geometry buffer. -/
def Call.is_reuse : Call → Bool
  | Call.vkResetCommandBuffer _ => true
  | Call.memcpy_mapped_data _ => true
  | _ => false

/-- A queue submission. -/
def Call.is_submit : Call → Bool
  | Call.vkQueueSubmit _ _ _ _ => true
  | _ => false

/-- A call of `vkWaitForFences` on the render fence that returned `VK_SUCCESS`. -/
def Call.is_fence_wait_ok : Call → Bool
  | Call.vkWaitForFences SyncObj.render_fence ret => decide (ret = VK_SUCCESS)
  | _ => false

/-- Scan of a trace for a reuse while a submission is in flight.  The flag says
whether a submission was issued and no successful fence wait followed it yet;
the scan yields the flag after the trace, or `none` at a reuse under a set flag. -/
def reuse_scan : Bool → List Call → Option Bool
  | in_flight, [] => some in_flight
  | in_flight, c :: rest =>
    if c.is_fence_wait_ok = true then reuse_scan false rest
    else if c.is_submit = true then reuse_scan true rest
    else if c.is_reuse = true ∧ in_flight = true then none
    else reuse_scan in_flight rest

/-! ## Signals and waits of the synchronisation objects -/

/-- Where a pending signal of a synchronisation object comes from. -/
inductive SignalSource
  /-- The object was created in the signaled state. -/
  | at_creation
  /-- The call at this position of the trace signals the object. -/
  | call (position : Nat)
  deriving DecidableEq, Repr

/-- The pending, not yet consumed signal of each synchronisation object, if any. -/
structure SyncState where
  render_fence : Option SignalSource
  present_sema : Option SignalSource
  render_sema : Option SignalSource
  deriving DecidableEq, Repr

/-- The pending signal of an object. -/
def SyncState.get (s : SyncState) : SyncObj → Option SignalSource
  | SyncObj.render_fence => s.render_fence
  | SyncObj.present_sema => s.present_sema
  | SyncObj.render_sema => s.render_sema

/-- Replace the pending signal of an object. -/
def SyncState.set (s : SyncState) (o : SyncObj) (v : Option SignalSource) : SyncState :=
  match o with
  | SyncObj.render_fence => { s with render_fence := v }
  | SyncObj.present_sema => { s with present_sema := v }
  | SyncObj.render_sema => { s with render_sema := v }

/-- A wait paired with the signal that covers it. -/
structure WaitMatch where
  /-- Position in the trace of the waiting call. -/
  wait_position : Nat
  object : SyncObj
  signal : SignalSource
  deriving DecidableEq, Repr

/-- The state of the synchronisation objects right after `sync_structures_init`: the
fence is signaled when `fence_ci.flags` has `VK_FENCE_CREATE_SIGNALED_BIT`, the
semaphores are unsignaled. -/
def initial_sync_state (fence_ci_flags : Nat) : SyncState :=
  { render_fence :=
      if fence_ci_flags &&& VK_FENCE_CREATE_SIGNALED_BIT ≠ 0 then some SignalSource.at_creation
      else none
    present_sema := none
    render_sema := none }

/-- Effect of the call at `position` on the synchronisation objects, for binary
(non-timeline) objects: a wait needs a pending signal of its object and, for a
semaphore, consumes it; a signal needs its object unsignaled.  The result is
`none` when the call breaks this discipline, else the new state and the waits
of this call with the signals covering them.  A call whose status is not
`VK_SUCCESS` has no effect. -/
def sync_step (position : Nat) (s : SyncState) : Call → Option (SyncState × List WaitMatch)
  | Call.vkWaitForFences fence ret =>
    if ret ≠ VK_SUCCESS then some (s, []) else
    match s.get fence with
    | none => none
    | some src => some (s, [⟨position, fence, src⟩])
  | Call.vkResetFences fence ret =>
    if ret ≠ VK_SUCCESS then some (s, []) else some (s.set fence none, [])
  | Call.vkAcquireNextImageKHR semaphore ret =>
    if ret ≠ VK_SUCCESS then some (s, []) else
    match s.get semaphore with
    | some _ => none
    | none => some (s.set semaphore (some (SignalSource.call position)), [])
  | Call.vkQueueSubmit wait signal fence ret =>
    if ret ≠ VK_SUCCESS then some (s, []) else
    match s.get wait with
    | none => none
    | some src =>
      let s1 := s.set wait none
      match s1.get signal, s1.get fence with
      | none, none =>
        some ((s1.set signal (some (SignalSource.call position))).set fence
          (some (SignalSource.call position)), [⟨position, wait, src⟩])
      | _, _ => none
  | Call.vkQueuePresentKHR wait _ ret =>
    if ret ≠ VK_SUCCESS then some (s, []) else
    match s.get wait with
    | none => none
    | some src => some (s.set wait none, [⟨position, wait, src⟩])
  | _ => some (s, [])

/-- Run `sync_step` over a trace whose first call has position `position`; the waits
are collected in order. -/
def sync_run : Nat → SyncState → List Call → Option (SyncState × List WaitMatch)
  | _, s, [] => some (s, [])
  | position, s, c :: rest =>
    (sync_step position s c).bind fun r1 =>
      (sync_run (position + 1) r1.1 rest).map fun r2 => (r2.1, r1.2 ++ r2.2)

/-- Number of calls of a frame in which every checked call succeeds. -/
def frame_length : Nat := 14

/-- The waits of the frame whose first call has position `p`, each with the signal
that covers it, when the fence signal pending at the start of the frame is `src`:
the fence wait (call 0 of the frame) by `src`, the submit (call 12) waiting on the
image-acquired semaphore by the acquire (call 3), the present (call 13) waiting
on the render-complete semaphore by the submit. -/
def frame_matches (p : Nat) (src : SignalSource) : List WaitMatch :=
  [⟨p, SyncObj.render_fence, src⟩,
   ⟨p + 12, SyncObj.present_sema, SignalSource.call (p + 3)⟩,
   ⟨p + 13, SyncObj.render_sema, SignalSource.call (p + 12)⟩]

/-- The waits of `n` successive frames from position `p` on: the fence wait of the
first is covered by `src`, that of each later frame by the submit of the frame
before it. -/
def frames_matches : Nat → Nat → SignalSource → List WaitMatch
  | 0, _, _ => []
  | n + 1, p, src =>
    frame_matches p src ++ frames_matches n (p + frame_length) (SignalSource.call (p + 12))

/-! ## Notions the statements use -/

/-- Index `i` is the first position of `l` whose element satisfies `p`. -/
def IsFirst {α : Type} (p : α → Bool) (l : List α) (i : Nat) : Prop :=
  (∃ x, l[i]? = some x ∧ p x = true) ∧ ∀ j < i, ∀ y, l[j]? = some y → p y = false

/-- Linear search: the index, counted from `i`, of the first element of the list
that satisfies `p`. -/
def first_index {α : Type} (p : α → Bool) : List α → Nat → Option Nat
  | [], _ => none
  | x :: rest, i => if p x = true then some i else first_index p rest (i + 1)

/-- Queue family 0 of the device can present to the surface. -/
def PhysicalDevice.presents_on_family0 (d : PhysicalDevice) : Bool :=
  (surface_support_family0 d).2

/-- The queue family supports graphics operations and presentation to the surface. -/
def QueueFamily.graphics_and_present (q : QueueFamily) : Bool :=
  (q.queueFlags &&& VK_QUEUE_GRAPHICS_BIT != 0) && q.supported

/-- The device has some queue family that supports both graphics operations and
presentation to the surface. -/
def PhysicalDevice.qualifies (d : PhysicalDevice) : Bool :=
  d.queue_families.any QueueFamily.graphics_and_present

/-- Every driver call of `vulkan_init` returns `VK_SUCCESS`, and the counts fit a
`uint32_t`. -/
def VulkanEnv.api_ok (env : VulkanEnv) : Prop :=
  env.vkCreateInstance = VK_SUCCESS ∧ env.vkCreateXlibSurfaceKHR = VK_SUCCESS ∧
  env.vkEnumeratePhysicalDevices_count = VK_SUCCESS ∧
  env.vkEnumeratePhysicalDevices = VK_SUCCESS ∧ env.vkCreateDevice = VK_SUCCESS ∧
  (∀ d ∈ env.phys_devices, d.queue_families.length ≤ UINT32_MAX ∧
    ∀ q ∈ d.queue_families, q.surface_support_ret = VK_SUCCESS)

/-- The memory type is allowed by the mask `memoryTypeBits` and is host-visible and
host-coherent. -/
def memory_type_qualifies (memoryTypeBits : Nat) (i : Nat) (mem_type : VkMemoryType) : Bool :=
  (memoryTypeBits &&& (1 <<< i) != 0) &&
  (mem_type.propertyFlags &&& VK_MEMORY_PROPERTY_HOST_VISIBLE_BIT != 0) &&
  (mem_type.propertyFlags &&& VK_MEMORY_PROPERTY_HOST_COHERENT_BIT != 0)

/-- The steps of `swapchain_init` before the image-count check pass: the queries
return `VK_SUCCESS` and the preferred format is among the surface formats. -/
def SwapchainEnv.queries_pass (env : SwapchainEnv) : Prop :=
  env.vkGetPhysicalDeviceSurfaceFormatsKHR_count = VK_SUCCESS ∧
  env.vkGetPhysicalDeviceSurfaceFormatsKHR = VK_SUCCESS ∧
  env.vkGetPhysicalDeviceSurfacePresentModesKHR_count = VK_SUCCESS ∧
  env.vkGetPhysicalDeviceSurfacePresentModesKHR = VK_SUCCESS ∧
  env.vkGetPhysicalDeviceSurfaceCapabilitiesKHR = VK_SUCCESS ∧
  ∃ f ∈ env.surface_formats,
    f.format = VK_FORMAT_B8G8R8A8_UNORM ∧ f.colorSpace = VK_COLOR_SPACE_SRGB_NONLINEAR_KHR

/-- Vertex `k` (0, 1 or 2) of the array `vertices`, as a point of the plane. -/
def vertex (vertices : List ℝ) (k : Nat) : ℝ × ℝ :=
  (vertices.getD (2 * k) 0, vertices.getD (2 * k + 1) 0)

/-- Distance of a point of the plane from the origin. -/
noncomputable def dist_origin (v : ℝ × ℝ) : ℝ :=
  Real.sqrt (v.1 ^ 2 + v.2 ^ 2)

/-- The angle, in radians in `[0, π]`, between two points as seen from the origin. -/
noncomputable def angle_at_origin (v w : ℝ × ℝ) : ℝ :=
  Real.arccos ((v.1 * w.1 + v.2 * w.2) / (dist_origin v * dist_origin w))

/-! ## Concrete inputs -/

/-- An engine before `engine_init`, with empty fields. -/
def blank_engine : Engine ℚ :=
  { window := { width := 0, height := 0 }
    phys_device := 0
    graphics_queue_family := 0
    swapchain_image_format := 0
    swapchain_image_count := 0
    swapchain_image_views := []
    framebuffers := []
    mapped_data := [] }

/-- An engine as `engine_init` leaves it on a swapchain of two images. -/
def engine_ready : Engine ℚ :=
  { window := { width := 600, height := 600 }
    phys_device := 0
    graphics_queue_family := 0
    swapchain_image_format := 44
    swapchain_image_count := 2
    swapchain_image_views := [0, 1]
    framebuffers :=
      [{ attachment := 0, width := 600, height := 600, layers := 1 },
       { attachment := 1, width := 600, height := 600, layers := 1 }]
    mapped_data := [] }

/-- A frame in which every driver call returns `VK_SUCCESS` and image 1 is acquired. -/
def frame_ok : DrawReturns :=
  { vkWaitForFences := 0, vkResetFences := 0, vkResetCommandBuffer := 0
    vkAcquireNextImageKHR := 0, swapchain_image_index := 1, vkBeginCommandBuffer := 0
    vkEndCommandBuffer := 0, vkQueueSubmit := 0, vkQueuePresentKHR := 0 }

/-- A frame in which `vkResetCommandBuffer` returns `VK_ERROR_OUT_OF_DEVICE_MEMORY`
(`-2`) and every other call returns `VK_SUCCESS`. -/
def frame_reset_fails : DrawReturns :=
  { frame_ok with vkResetCommandBuffer := -2 }

/-- A shader file of eight bytes that opens and loads. -/
def shader_file_ok : ShaderFile :=
  { contents := some [3, 2, 35, 7, 0, 0, 1, 0], malloc_ok := true, vkCreateShaderModule := 0 }

/-- A device with one queue family, which does graphics and can present. -/
def device_ok : PhysicalDevice :=
  { queue_families := [{ queueFlags := 0x7, surface_support_ret := 0, supported := true }] }

/-- A device whose queue family 0 does graphics but cannot present, and whose
queue family 1 does graphics and can present. -/
def device_present_on_family1 : PhysicalDevice :=
  { queue_families :=
      [{ queueFlags := 0x1, surface_support_ret := 0, supported := false },
       { queueFlags := 0x7, surface_support_ret := 0, supported := true }] }

/-- Two memory types, both host-visible and host-coherent: type 0 on a heap of
256 MiB, type 1 on a heap of 16 GiB. -/
def mem_prop_two_heaps : VkPhysicalDeviceMemoryProperties :=
  { memoryTypes := [{ propertyFlags := 0x7, heapIndex := 0 }, { propertyFlags := 0x6, heapIndex := 1 }]
    memoryHeaps := [{ size := 268435456, flags := 1 }, { size := 17179869184, flags := 0 }] }

/-- A driver on which `engine_init` runs to its end: one device, the preferred
surface format, two swapchain images, and a surface whose current extent is
`currentExtent`. -/
def env_ok (currentExtent : VkExtent2D) : EngineEnv ℚ :=
  { vulkan :=
      { vkCreateInstance := 0, vkCreateXlibSurfaceKHR := 0
        vkEnumeratePhysicalDevices_count := 0, vkEnumeratePhysicalDevices := 0
        phys_devices := [device_ok], vkCreateDevice := 0 }
    memory :=
      { vkCreateBuffer := 0, mem_req_size := 2048, memoryTypeBits := 0x3
        mem_prop := mem_prop_two_heaps
        vkAllocateMemory := 0, vkBindBufferMemory := 0, vkMapMemory := 0 }
    mapped_memory := []
    swapchain :=
      { vkGetPhysicalDeviceSurfaceFormatsKHR_count := 0
        vkGetPhysicalDeviceSurfaceFormatsKHR := 0
        surface_formats := [{ format := 44, colorSpace := 0 }]
        surface_format_uninit := { format := 0, colorSpace := 0 }
        vkGetPhysicalDeviceSurfacePresentModesKHR_count := 0
        vkGetPhysicalDeviceSurfacePresentModesKHR := 0
        present_modes := [2]
        vkGetPhysicalDeviceSurfaceCapabilitiesKHR := 0
        surface_capabilities :=
          { currentExtent := currentExtent, maxImageCount := 0, currentTransform := 1 }
        vkCreateSwapchainKHR := 0
        vkGetSwapchainImagesKHR_count := 0
        vkGetSwapchainImagesKHR := 0
        swapchain_image_count := 2
        vkCreateImageView := fun _ => 0 }
    vkCreateRenderPass := 0
    vkCreateFramebuffer := fun _ => 0
    vkCreateCommandPool := 0
    vkAllocateCommandBuffers := 0
    sync := { vkCreateFence := 0, vkCreateSemaphore_present := 0, vkCreateSemaphore_render := 0 }
    pipelines :=
      { triangle_frag := shader_file_ok, triangle_vert := shader_file_ok
        vkCreatePipelineLayout := 0, vkCreateGraphicsPipelines := 0 } }

/-! ## The shader files -/

/-- The part of `load_shader_module` before the call of `vkCreateShaderModule` (lines
512-545): the file is opened, measured and read, and `shader_module_ci` is built.
`fread` is taken to fill the buffer with the `filesize` bytes of the file; the
source does not look at its return value. -/
def shader_module_create_info (file : ShaderFile) : Except Fatal VkShaderModuleCreateInfo :=
  match file.contents with
  | none => Except.error Fatal.open_file
  | some bytes =>
    let filesize := bytes.length
    if filesize % 4 ≠ 0 then Except.error Fatal.invalid_spirv else
    if file.malloc_ok = false then Except.error Fatal.alloc_failed else
    let buffer := bytes.take filesize
    Except.ok { codeSize := filesize, pCode := buffer }

/-! ## Creation and destruction of the entities -/

/-- An object the engine creates through the driver, named after the field of
`Engine` (or the local of `pipelines_init`) that holds its handle.  An image
view or framebuffer is named by its slot in the array `e->swapchain_image_views`
or `e->framebuffers`. -/
inductive Entity
  /-- Field `e->instance`. -/
  | vk_instance
  | surface
  | device
  | buffer
  | memory
  | swapchain
  | swapchain_image_view (i : Nat)
  | render_pass
  | framebuffer (i : Nat)
  | command_pool
  | command_buffer
  | render_fence
  | present_sema
  | render_sema
  | triangle_frag_shader
  | triangle_vert_shader
  | triangle_pipeline_layout
  | triangle_pipeline
  deriving DecidableEq, Repr

/-- A call that creates (`vkCreate...`, `vkAllocate...`) or destroys (`vkDestroy...`,
`vkFree...`) an entity. -/
inductive LifeCall
  | create (x : Entity)
  | destroy (x : Entity)
  deriving DecidableEq, Repr

/-- The values of `i` in a loop `for (i = 0; i < n; i++)`: `k` iterations from `i` on. -/
def loop_up : Nat → Nat → List Nat
  | 0, _ => []
  | k + 1, i => i :: loop_up k (i + 1)

/-- The values of `i` in a loop `for (int i = n; i >= 0; i--)`, from `n` on. -/
def loop_down : Nat → List Nat
  | 0 => [0]
  | i + 1 => (i + 1) :: loop_down i

/-- The creating calls of a `vulkan_init` that runs to its end (lines 48, 57, 146). -/
def vulkan_init_calls : List LifeCall :=
  [LifeCall.create Entity.vk_instance, LifeCall.create Entity.surface,
   LifeCall.create Entity.device]

/-- The creating calls of a `memory_init` that runs to its end (lines 183, 224). -/
def memory_init_calls : List LifeCall :=
  [LifeCall.create Entity.buffer, LifeCall.create Entity.memory]

/-- The creating calls of a `swapchain_init` that runs to its end (lines 324,
353-356), on the engine it leaves. -/
def swapchain_init_calls {F : Type} (e : Engine F) : List LifeCall :=
  LifeCall.create Entity.swapchain ::
    (loop_up e.swapchain_image_count 0).map fun i =>
      LifeCall.create (Entity.swapchain_image_view i)

/-- The creating call of a `renderpass_init` that runs to its end (line 420). -/
def renderpass_init_calls : List LifeCall :=
  [LifeCall.create Entity.render_pass]

/-- The creating calls of a `framebuffers_init` that runs to its end (lines 442-446). -/
def framebuffers_init_calls {F : Type} (e : Engine F) : List LifeCall :=
  (loop_up e.swapchain_image_count 0).map fun i => LifeCall.create (Entity.framebuffer i)

/-- The creating calls of a `command_pool_init` that runs to its end (lines 466, 475). -/
def command_pool_init_calls : List LifeCall :=
  [LifeCall.create Entity.command_pool, LifeCall.create Entity.command_buffer]

/-- The creating calls of a `sync_structures_init` that runs to its end (lines 492,
498, 499). -/
def sync_structures_init_calls : List LifeCall :=
  [LifeCall.create Entity.render_fence, LifeCall.create Entity.present_sema,
   LifeCall.create Entity.render_sema]

/-- The creating and destroying calls of a `pipelines_init` that runs to its end
(lines 555, 558, 570, 694, 696, 697): the two shader modules are destroyed
again before it returns. -/
def pipelines_init_calls : List LifeCall :=
  [LifeCall.create Entity.triangle_frag_shader, LifeCall.create Entity.triangle_vert_shader,
   LifeCall.create Entity.triangle_pipeline_layout, LifeCall.create Entity.triangle_pipeline,
   LifeCall.destroy Entity.triangle_frag_shader, LifeCall.destroy Entity.triangle_vert_shader]

/-- The function `vulkan_deinit` (lines 151-155). -/
def vulkan_deinit : List LifeCall :=
  [LifeCall.destroy Entity.device]

/-- The function `memory_deinit` (lines 231-237), after the unmap. -/
def memory_deinit : List LifeCall :=
  [LifeCall.destroy Entity.memory, LifeCall.destroy Entity.buffer]

/-- The function `swapchain_deinit` (lines 360-370). -/
def swapchain_deinit {F : Type} (e : Engine F) : List LifeCall :=
  ((loop_down e.swapchain_image_count).map fun i =>
    LifeCall.destroy (Entity.swapchain_image_view i)) ++
  [LifeCall.destroy Entity.swapchain]

/-- The function `renderpass_deinit` (lines 423-426). -/
def renderpass_deinit : List LifeCall :=
  [LifeCall.destroy Entity.render_pass]

/-- The function `framebuffers_deinit` (lines 449-456). -/
def framebuffers_deinit {F : Type} (e : Engine F) : List LifeCall :=
  (loop_down e.swapchain_image_count).map fun i => LifeCall.destroy (Entity.framebuffer i)

/-- The function `command_pool_deinit` (lines 478-483). -/
def command_pool_deinit : List LifeCall :=
  [LifeCall.destroy Entity.command_buffer, LifeCall.destroy Entity.command_pool]

/-- The function `sync_structures_deinit` (lines 502-508). -/
def sync_structures_deinit : List LifeCall :=
  [LifeCall.destroy Entity.render_sema, LifeCall.destroy Entity.present_sema,
   LifeCall.destroy Entity.render_fence]

/-- The function `pipelines_deinit` (lines 700-705). -/
def pipelines_deinit : List LifeCall :=
  [LifeCall.destroy Entity.triangle_pipeline, LifeCall.destroy Entity.triangle_pipeline_layout]

/-- The calls of the `_init` function of a component, when it runs to its end. -/
def component_init_calls {F : Type} (e : Engine F) : Component → List LifeCall
  | Component.vulkan => vulkan_init_calls
  | Component.memory => memory_init_calls
  | Component.swapchain => swapchain_init_calls e
  | Component.renderpass => renderpass_init_calls
  | Component.framebuffers => framebuffers_init_calls e
  | Component.command_pool => command_pool_init_calls
  | Component.sync_structures => sync_structures_init_calls
  | Component.pipelines => pipelines_init_calls

/-- The calls of the `_deinit` function of a component. -/
def component_deinit_calls {F : Type} (e : Engine F) : Component → List LifeCall
  | Component.vulkan => vulkan_deinit
  | Component.memory => memory_deinit
  | Component.swapchain => swapchain_deinit e
  | Component.renderpass => renderpass_deinit
  | Component.framebuffers => framebuffers_deinit e
  | Component.command_pool => command_pool_deinit
  | Component.sync_structures => sync_structures_deinit
  | Component.pipelines => pipelines_deinit

/-- The creating and destroying calls of an `engine_init` that runs to its end and
leaves the engine `e`, in the order of lines 712-741. -/
def engine_init_calls {F : Type} (e : Engine F) : List LifeCall :=
  [Component.vulkan, Component.memory, Component.swapchain, Component.renderpass,
   Component.framebuffers, Component.command_pool, Component.sync_structures,
   Component.pipelines].flatMap (component_init_calls e)

/-- The destroying calls of `engine_deinit` on the engine `e`. -/
def engine_deinit_calls {F : Type} (e : Engine F) : List LifeCall :=
  (engine_deinit e).flatMap (component_deinit_calls e)

/-! ## Lemmas on `engine_draw` -/

theorem engine_draw_calls {F : Type} [Field F] (sinf cosf : F → F) (e : Engine F)
    (vk : DrawReturns) (cycle : F) :
    (engine_draw sinf cosf e vk cycle).calls = (frame_calls e vk).take (calls_issued vk) := by
  simp only [engine_draw, calls_issued]
  split_ifs <;> rfl

theorem calls_issued_of_all_ok (vk : DrawReturns) (h : vk.all_ok) : calls_issued vk = 14 := by
  obtain ⟨h1, h2, _, h4, h5, h6, h7, _⟩ := h
  simp [calls_issued, h1, h2, h4, h5, h6, h7]

theorem engine_draw_result_of_checked_ok {F : Type} [Field F] (sinf cosf : F → F)
    (e : Engine F) (vk : DrawReturns) (cycle : F)
    (h1 : vk.vkWaitForFences = VK_SUCCESS) (h2 : vk.vkResetFences = VK_SUCCESS)
    (h4 : vk.vkAcquireNextImageKHR = VK_SUCCESS) (h5 : vk.vkBeginCommandBuffer = VK_SUCCESS)
    (h6 : vk.vkEndCommandBuffer = VK_SUCCESS) (h7 : vk.vkQueueSubmit = VK_SUCCESS)
    (h8 : vk.vkQueuePresentKHR = VK_SUCCESS) :
    (engine_draw sinf cosf e vk cycle).result =
      Except.ok { e with mapped_data := engine_draw_vertices sinf cosf cycle ++
        e.mapped_data.drop (engine_draw_vertices sinf cosf cycle).length } := by
  simp only [engine_draw, h1, h2, h4, h5, h6, h7, h8, ne_eq, not_true_eq_false, if_false]

theorem engine_draw_result_of_all_ok {F : Type} [Field F] (sinf cosf : F → F) (e : Engine F)
    (vk : DrawReturns) (cycle : F) (h : vk.all_ok) :
    ∃ e1, (engine_draw sinf cosf e vk cycle).result = Except.ok e1 := by
  obtain ⟨h1, h2, _, h4, h5, h6, h7, h8⟩ := h
  exact ⟨_, engine_draw_result_of_checked_ok sinf cosf e vk cycle h1 h2 h4 h5 h6 h7 h8⟩

theorem draw_frames_cons_ok {F : Type} [Field F] (sinf cosf : F → F) (e e1 : Engine F)
    (vk : DrawReturns) (cycle : F) (rest : List (DrawReturns × F))
    (h : (engine_draw sinf cosf e vk cycle).result = Except.ok e1) :
    (draw_frames sinf cosf e ((vk, cycle) :: rest)).calls =
      (engine_draw sinf cosf e vk cycle).calls ++ (draw_frames sinf cosf e1 rest).calls := by
  simp only [draw_frames, h]

theorem is_fence_wait_ok_iff (c : Call) :
    c.is_fence_wait_ok = true ↔ c = Call.vkWaitForFences SyncObj.render_fence VK_SUCCESS := by
  cases c <;> simp [Call.is_fence_wait_ok]
  case vkWaitForFences fence ret =>
    cases fence <;> simp [Call.is_fence_wait_ok]

theorem reuse_scan_append (b : Bool) (l m : List Call) :
    reuse_scan b (l ++ m) = (reuse_scan b l).bind (fun b1 => reuse_scan b1 m) := by
  induction l generalizing b with
  | nil => simp [reuse_scan]
  | cons c l ih =>
    simp only [List.cons_append, reuse_scan]
    split_ifs <;> simp [ih]

theorem reuse_scan_wait_before (pre post : List Call) (c : Call)
    (h : reuse_scan true (pre ++ c :: post) ≠ none) (hc : c.is_reuse = true) :
    ∃ w ∈ pre, w.is_fence_wait_ok = true := by
  induction pre with
  | nil =>
    exfalso
    apply h
    cases c <;> simp_all [reuse_scan, Call.is_reuse, Call.is_fence_wait_ok, Call.is_submit]
  | cons x pre ih =>
    by_cases hx : x.is_fence_wait_ok = true
    · exact ⟨x, by simp, hx⟩
    · have h2 : reuse_scan true (pre ++ c :: post) ≠ none := by
        intro h3
        apply h
        simp only [List.cons_append, reuse_scan, hx]
        split_ifs <;> simp_all
      obtain ⟨w, hw, hw2⟩ := ih h2
      exact ⟨w, by simp [hw], hw2⟩

theorem engine_draw_reuse_scan {F : Type} [Field F] (sinf cosf : F → F) (e : Engine F)
    (vk : DrawReturns) (cycle : F) (b : Bool) :
    ∃ b1, reuse_scan b (engine_draw sinf cosf e vk cycle).calls = some b1 := by
  rw [engine_draw_calls]
  simp only [calls_issued, frame_calls]
  split_ifs with h1 h2 h3 h4 h5 h6 <;>
    simp only [List.take_succ_cons, List.take_zero, reuse_scan, Call.is_reuse,
      Call.is_fence_wait_ok, Call.is_submit] <;>
    simp_all

theorem draw_frames_reuse_scan {F : Type} [Field F] (sinf cosf : F → F) (e : Engine F)
    (frames : List (DrawReturns × F)) (b : Bool) :
    ∃ b1, reuse_scan b (draw_frames sinf cosf e frames).calls = some b1 := by
  induction frames generalizing e b with
  | nil => exact ⟨b, by simp [draw_frames, reuse_scan]⟩
  | cons fr rest ih =>
    obtain ⟨vk, cycle⟩ := fr
    obtain ⟨b1, hb1⟩ := engine_draw_reuse_scan sinf cosf e vk cycle b
    simp only [draw_frames]
    split
    · exact ⟨b1, hb1⟩
    · rename_i e1 _
      obtain ⟨b2, hb2⟩ := ih e1 b1
      exact ⟨b2, by simp [reuse_scan_append, hb1, hb2]⟩



theorem reuse_scan_wait_between (b : Bool) (l1 l2 l3 : List Call) (s w : Call)
    (h : reuse_scan b (l1 ++ s :: (l2 ++ w :: l3)) ≠ none)
    (hs : s.is_submit = true) (hw : w.is_reuse = true) :
    ∃ c ∈ l2, c.is_fence_wait_ok = true := by
  rw [reuse_scan_append] at h
  cases h1 : reuse_scan b l1 with
  | none => simp [h1] at h
  | some b1 =>
    have h2 : reuse_scan true (l2 ++ w :: l3) ≠ none := by
      intro h3
      apply h
      cases s <;> simp_all [reuse_scan, Call.is_submit, Call.is_fence_wait_ok]
    exact reuse_scan_wait_before l2 l3 w h2 hw

theorem engine_draw_calls_of_all_ok {F : Type} [Field F] (sinf cosf : F → F) (e : Engine F)
    (vk : DrawReturns) (cycle : F) (h : vk.all_ok) :
    (engine_draw sinf cosf e vk cycle).calls =
      [Call.vkWaitForFences SyncObj.render_fence VK_SUCCESS,
       Call.vkResetFences SyncObj.render_fence VK_SUCCESS,
       Call.vkResetCommandBuffer VK_SUCCESS,
       Call.vkAcquireNextImageKHR SyncObj.present_sema VK_SUCCESS,
       Call.vkBeginCommandBuffer VK_SUCCESS,
       Call.memcpy_mapped_data 24,
       Call.vkCmdBeginRenderPass e.framebuffers[vk.swapchain_image_index]? e.window,
       Call.vkCmdBindVertexBuffers 0,
       Call.vkCmdBindPipeline,
       Call.vkCmdDraw 3 1 0 0,
       Call.vkCmdEndRenderPass,
       Call.vkEndCommandBuffer VK_SUCCESS,
       Call.vkQueueSubmit SyncObj.present_sema SyncObj.render_sema SyncObj.render_fence VK_SUCCESS,
       Call.vkQueuePresentKHR SyncObj.render_sema vk.swapchain_image_index VK_SUCCESS] := by
  rw [engine_draw_calls, calls_issued_of_all_ok vk h]
  obtain ⟨h1, h2, h3, h4, h5, h6, h7, h8⟩ := h
  simp [frame_calls, h1, h2, h3, h4, h5, h6, h7, h8, sizeof_vertices]

/-- C1: in a frame in which every driver call succeeds, `engine_draw` issues exactly
these fourteen calls in this order: fence wait, fence reset, command-buffer
reset, acquire, begin of recording, write of the vertices into the mapped
geometry buffer, begin render pass, bind vertex buffer at offset 0, bind
pipeline, draw of 3 vertices and 1 instance, end render pass, end of recording,
submit, present; so the operations the claim lists occur in the claimed
order (the begin of recording, which the claim does not list, lies between the
acquire and the write).  In every frame, whatever the driver returns, a
successful fence wait precedes the command-buffer reset and the write; and in
the trace of any sequence of frames a successful fence wait lies between a
submit and any later reset or write. -/
theorem engine_draw_call_order {F : Type} [Field F] (sinf cosf : F → F) (e : Engine F)
    (vk : DrawReturns) (cycle : F) (h : vk.all_ok) :
    (engine_draw sinf cosf e vk cycle).calls =
      [Call.vkWaitForFences SyncObj.render_fence VK_SUCCESS,
       Call.vkResetFences SyncObj.render_fence VK_SUCCESS,
       Call.vkResetCommandBuffer VK_SUCCESS,
       Call.vkAcquireNextImageKHR SyncObj.present_sema VK_SUCCESS,
       Call.vkBeginCommandBuffer VK_SUCCESS,
       Call.memcpy_mapped_data 24,
       Call.vkCmdBeginRenderPass e.framebuffers[vk.swapchain_image_index]? e.window,
       Call.vkCmdBindVertexBuffers 0,
       Call.vkCmdBindPipeline,
       Call.vkCmdDraw 3 1 0 0,
       Call.vkCmdEndRenderPass,
       Call.vkEndCommandBuffer VK_SUCCESS,
       Call.vkQueueSubmit SyncObj.present_sema SyncObj.render_sema SyncObj.render_fence VK_SUCCESS,
       Call.vkQueuePresentKHR SyncObj.render_sema vk.swapchain_image_index VK_SUCCESS] ∧
    (∀ (e1 : Engine F) (vk1 : DrawReturns) (cycle1 : F) (pre post : List Call) (c : Call),
      (engine_draw sinf cosf e1 vk1 cycle1).calls = pre ++ c :: post → c.is_reuse = true →
      Call.vkWaitForFences SyncObj.render_fence VK_SUCCESS ∈ pre) ∧
    (∀ (e1 : Engine F) (frames : List (DrawReturns × F)) (l1 l2 l3 : List Call) (s w : Call),
      (draw_frames sinf cosf e1 frames).calls = l1 ++ s :: (l2 ++ w :: l3) →
      s.is_submit = true → w.is_reuse = true →
      Call.vkWaitForFences SyncObj.render_fence VK_SUCCESS ∈ l2) := by
  refine ⟨?_, ?_, ?_⟩
  · exact engine_draw_calls_of_all_ok sinf cosf e vk cycle h
  · intro e1 vk1 cycle1 pre post c hcalls hc
    obtain ⟨b1, hb1⟩ := engine_draw_reuse_scan sinf cosf e1 vk1 cycle1 true
    rw [hcalls] at hb1
    obtain ⟨w, hw, hw2⟩ := reuse_scan_wait_before pre post c (by simp [hb1]) hc
    rw [is_fence_wait_ok_iff] at hw2
    exact hw2 ▸ hw
  · intro e1 frames l1 l2 l3 s w hcalls hs hw
    obtain ⟨b1, hb1⟩ := draw_frames_reuse_scan sinf cosf e1 frames false
    rw [hcalls] at hb1
    obtain ⟨c, hc, hc2⟩ := reuse_scan_wait_between false l1 l2 l3 s w (by simp [hb1]) hs hw
    rw [is_fence_wait_ok_iff] at hc2
    exact hc2 ▸ hc

theorem engine_draw_call_order_witness :
    frame_ok.all_ok ∧
    (engine_draw (fun x => x) (fun x => x) engine_ready frame_ok 0).calls =
      [Call.vkWaitForFences SyncObj.render_fence VK_SUCCESS,
       Call.vkResetFences SyncObj.render_fence VK_SUCCESS,
       Call.vkResetCommandBuffer VK_SUCCESS,
       Call.vkAcquireNextImageKHR SyncObj.present_sema VK_SUCCESS,
       Call.vkBeginCommandBuffer VK_SUCCESS,
       Call.memcpy_mapped_data 24,
       Call.vkCmdBeginRenderPass engine_ready.framebuffers[frame_ok.swapchain_image_index]?
         engine_ready.window,
       Call.vkCmdBindVertexBuffers 0,
       Call.vkCmdBindPipeline,
       Call.vkCmdDraw 3 1 0 0,
       Call.vkCmdEndRenderPass,
       Call.vkEndCommandBuffer VK_SUCCESS,
       Call.vkQueueSubmit SyncObj.present_sema SyncObj.render_sema SyncObj.render_fence VK_SUCCESS,
       Call.vkQueuePresentKHR SyncObj.render_sema frame_ok.swapchain_image_index VK_SUCCESS] :=
  ⟨by simp [DrawReturns.all_ok, frame_ok, VK_SUCCESS],
   (engine_draw_call_order (fun x => x) (fun x => x) engine_ready frame_ok 0
     (by simp [DrawReturns.all_ok, frame_ok, VK_SUCCESS])).1⟩

/-- C6: at the input where `vkResetCommandBuffer` returns
`VK_ERROR_OUT_OF_DEVICE_MEMORY` and every other call succeeds, `engine_draw` does
not exit: it goes on to acquire, record, submit and present, and returns. -/
theorem engine_draw_reset_status_unchecked {F : Type} [Field F] (sinf cosf : F → F)
    (e : Engine F) (cycle : F) :
    (engine_draw sinf cosf e frame_reset_fails cycle).calls =
      [Call.vkWaitForFences SyncObj.render_fence VK_SUCCESS,
       Call.vkResetFences SyncObj.render_fence VK_SUCCESS,
       Call.vkResetCommandBuffer (-2),
       Call.vkAcquireNextImageKHR SyncObj.present_sema VK_SUCCESS,
       Call.vkBeginCommandBuffer VK_SUCCESS,
       Call.memcpy_mapped_data 24,
       Call.vkCmdBeginRenderPass e.framebuffers[1]? e.window,
       Call.vkCmdBindVertexBuffers 0,
       Call.vkCmdBindPipeline,
       Call.vkCmdDraw 3 1 0 0,
       Call.vkCmdEndRenderPass,
       Call.vkEndCommandBuffer VK_SUCCESS,
       Call.vkQueueSubmit SyncObj.present_sema SyncObj.render_sema SyncObj.render_fence VK_SUCCESS,
       Call.vkQueuePresentKHR SyncObj.render_sema 1 VK_SUCCESS] ∧
    ∃ e1, (engine_draw sinf cosf e frame_reset_fails cycle).result = Except.ok e1 := by
  constructor
  · rw [engine_draw_calls]
    rfl
  · exact ⟨_, engine_draw_result_of_checked_ok sinf cosf e frame_reset_fails cycle
      rfl rfl rfl rfl rfl rfl rfl⟩

/-! ## Lemmas on the synchronisation objects -/

theorem sync_run_cons (p : Nat) (s : SyncState) (c : Call) (rest : List Call) :
    sync_run p s (c :: rest) =
      (sync_step p s c).bind fun r1 =>
        (sync_run (p + 1) r1.1 rest).map fun r2 => (r2.1, r1.2 ++ r2.2) := rfl

theorem sync_run_append (p : Nat) (s : SyncState) (l m : List Call) :
    sync_run p s (l ++ m) =
      (sync_run p s l).bind fun r1 =>
        (sync_run (p + l.length) r1.1 m).map fun r2 => (r2.1, r1.2 ++ r2.2) := by
  induction l generalizing p s with
  | nil =>
    simp only [List.nil_append, sync_run, List.length_nil, Nat.add_zero, Option.some_bind]
    cases sync_run p s m <;> simp
  | cons c l ih =>
    rw [List.cons_append, sync_run_cons, sync_run_cons]
    cases sync_step p s c with
    | none => rfl
    | some r1 =>
      have hp : p + 1 + l.length = p + (l.length + 1) := by omega
      simp only [Option.some_bind, ih, hp, List.length_cons]
      cases sync_run (p + 1) r1.1 l with
      | none => rfl
      | some r2 =>
        simp only [Option.some_bind, Option.map_some']
        cases sync_run (p + (l.length + 1)) r2.1 m <;> simp [List.append_assoc]

theorem sync_run_frame {F : Type} (e : Engine F) (vk : DrawReturns) (h : vk.all_ok) (p : Nat)
    (src : SignalSource) :
    sync_run p ⟨some src, none, none⟩ (frame_calls e vk) =
      some (⟨some (SignalSource.call (p + 12)), none, none⟩, frame_matches p src) := by
  obtain ⟨h1, h2, h3, h4, h5, h6, h7, h8⟩ := h
  simp only [frame_calls, h1, h2, h3, h4, h5, h6, h7, h8]
  simp [sync_run, sync_step, SyncState.get, SyncState.set, frame_matches, Nat.add_assoc]

theorem sync_run_frames {F : Type} [Field F] (sinf cosf : F → F) (e : Engine F)
    (frames : List (DrawReturns × F)) (hok : ∀ fr ∈ frames, fr.1.all_ok) (p : Nat)
    (src : SignalSource) :
    ∃ src1, sync_run p ⟨some src, none, none⟩ (draw_frames sinf cosf e frames).calls =
      some (⟨some src1, none, none⟩, frames_matches frames.length p src) := by
  induction frames generalizing e p src with
  | nil => exact ⟨src, by simp [draw_frames, sync_run, frames_matches]⟩
  | cons fr rest ih =>
    obtain ⟨vk, cycle⟩ := fr
    have hvk : vk.all_ok := hok (vk, cycle) (by simp)
    have hrest : ∀ fr ∈ rest, fr.1.all_ok := fun fr hfr => hok fr (by simp [hfr])
    have hcalls : (engine_draw sinf cosf e vk cycle).calls = frame_calls e vk := by
      rw [engine_draw_calls, calls_issued_of_all_ok vk hvk]
      rfl
    obtain ⟨e1, hres⟩ := engine_draw_result_of_all_ok sinf cosf e vk cycle hvk
    rw [draw_frames_cons_ok sinf cosf e e1 vk cycle rest hres, hcalls]
    obtain ⟨src1, h1⟩ := ih e1 hrest (p + frame_length) (SignalSource.call (p + 12))
    refine ⟨src1, ?_⟩
    rw [sync_run_append, sync_run_frame e vk hvk p src]
    have hlen : (frame_calls e vk).length = frame_length := rfl
    simp only [hlen, h1, List.length_cons, frames_matches, Option.some_bind, Option.map_some']

/-- C7: after `sync_structures_init`, over any sequence of frames in which every
driver call succeeds, the calls of `engine_draw` keep the discipline of binary
synchronisation objects (no wait without a pending signal of its object, no
signal of an object that is still signaled), and the waits are covered as
follows: the fence wait of the first frame by the signaled state the fence is
created in, the fence wait of each later frame by the submit of the frame
before it, the submit's wait on the image-acquired semaphore by the acquire of
the same frame, and the present's wait on the render-complete semaphore by the
submit of the same frame. -/
theorem sync_waits_matched {F : Type} [Field F] (sinf cosf : F → F) (e : Engine F)
    (env : SyncEnv) (fence_ci_flags : Nat) (frames : List (DrawReturns × F))
    (hinit : sync_structures_init env = Except.ok fence_ci_flags)
    (hok : ∀ fr ∈ frames, fr.1.all_ok) :
    ∃ s, sync_run 0 (initial_sync_state fence_ci_flags) (draw_frames sinf cosf e frames).calls =
      some (s, frames_matches frames.length 0 SignalSource.at_creation) := by
  have hflags : fence_ci_flags = VK_FENCE_CREATE_SIGNALED_BIT := by
    simp only [sync_structures_init] at hinit
    split_ifs at hinit
    exact (Except.ok.inj hinit).symm
  have hs : initial_sync_state fence_ci_flags = ⟨some SignalSource.at_creation, none, none⟩ := by
    subst hflags
    simp [initial_sync_state, VK_FENCE_CREATE_SIGNALED_BIT]
  obtain ⟨src1, h1⟩ := sync_run_frames sinf cosf e frames hok 0 SignalSource.at_creation
  exact ⟨_, by rw [hs, h1]⟩

theorem sync_waits_matched_witness :
    sync_structures_init ⟨0, 0, 0⟩ = Except.ok 1 ∧
    (∀ fr ∈ [(frame_ok, (0 : ℚ)), (frame_ok, 1 / 4)], fr.1.all_ok) ∧
    ∃ s, sync_run 0 (initial_sync_state 1)
        (draw_frames (fun x => x) (fun x => x) engine_ready
          [(frame_ok, (0 : ℚ)), (frame_ok, 1 / 4)]).calls =
      some (s, frames_matches [(frame_ok, (0 : ℚ)), (frame_ok, 1 / 4)].length 0
        SignalSource.at_creation) :=
  ⟨rfl, by simp [DrawReturns.all_ok, frame_ok, VK_SUCCESS],
   sync_waits_matched (fun x => x) (fun x => x) engine_ready ⟨0, 0, 0⟩ 1
     [(frame_ok, (0 : ℚ)), (frame_ok, 1 / 4)] rfl
     (by simp [DrawReturns.all_ok, frame_ok, VK_SUCCESS])⟩

/-! ## Lemmas on the framebuffers -/

theorem create_framebuffers_get (window : VkExtent2D) (rets : Nat → VkResult) (k i : Nat)
    (fbs : List Framebuffer) (h : create_framebuffers window rets k i = Except.ok fbs) :
    fbs.length = k ∧
    ∀ j, j < k → fbs[j]? = some ⟨i + j, window.width, window.height, 1⟩ := by
  induction k generalizing i fbs with
  | zero =>
    simp only [create_framebuffers] at h
    cases h
    simp
  | succ k ih =>
    simp only [create_framebuffers] at h
    split_ifs at h
    cases hrec : create_framebuffers window rets k (i + 1) with
    | error f => simp [hrec] at h
    | ok rest =>
      simp only [hrec] at h
      cases h
      obtain ⟨hlen, hget⟩ := ih (i + 1) rest hrec
      refine ⟨by simp [hlen], ?_⟩
      intro j hj
      cases j with
      | zero => simp
      | succ j =>
        have := hget j (by omega)
        simp only [List.getElem?_cons_succ, this]
        congr 2
        omega

theorem framebuffers_init_get {F : Type} (e0 e : Engine F) (rets : Nat → VkResult)
    (h : framebuffers_init e0 rets = Except.ok e) :
    e.window = e0.window ∧ e.framebuffers.length = e0.swapchain_image_count ∧
    ∀ j, j < e0.swapchain_image_count →
      e.framebuffers[j]? = some ⟨j, e0.window.width, e0.window.height, 1⟩ := by
  simp only [framebuffers_init] at h
  cases hrec : create_framebuffers e0.window rets e0.swapchain_image_count 0 with
  | error f => simp [hrec] at h
  | ok fbs =>
    simp only [hrec] at h
    cases h
    obtain ⟨hlen, hget⟩ := create_framebuffers_get _ _ _ _ _ hrec
    refine ⟨rfl, hlen, ?_⟩
    intro j hj
    simpa using hget j hj

/-- C8: on the engine `framebuffers_init` leaves, in a frame in which every driver
call succeeds and the acquire returns an index `i` within the image count, the
render pass is begun on `framebuffers[i]`, which was created with the image view
of slot `i` as its attachment, and the index handed to the present is `i`; no
other framebuffer and no other index appears in the frame. -/
theorem draw_uses_acquired_index {F : Type} [Field F] (sinf cosf : F → F)
    (e0 e : Engine F) (rets : Nat → VkResult) (vk : DrawReturns) (cycle : F)
    (hfb : framebuffers_init e0 rets = Except.ok e)
    (hi : vk.swapchain_image_index < e0.swapchain_image_count)
    (hok : vk.all_ok) :
    ∃ fb, e.framebuffers[vk.swapchain_image_index]? = some fb ∧
      fb.attachment = vk.swapchain_image_index ∧
      Call.vkCmdBeginRenderPass (some fb) e.window ∈ (engine_draw sinf cosf e vk cycle).calls ∧
      Call.vkQueuePresentKHR SyncObj.render_sema vk.swapchain_image_index VK_SUCCESS ∈
        (engine_draw sinf cosf e vk cycle).calls ∧
      (∀ fbo ext, Call.vkCmdBeginRenderPass fbo ext ∈ (engine_draw sinf cosf e vk cycle).calls →
        fbo = some fb) ∧
      (∀ w j r, Call.vkQueuePresentKHR w j r ∈ (engine_draw sinf cosf e vk cycle).calls →
        j = vk.swapchain_image_index) := by
  obtain ⟨_, _, hget⟩ := framebuffers_init_get e0 e rets hfb
  have hcalls := engine_draw_calls_of_all_ok sinf cosf e vk cycle hok
  refine ⟨_, hget _ hi, rfl, ?_, ?_, ?_, ?_⟩
  · rw [hcalls, hget _ hi]; simp
  · rw [hcalls]; simp
  · intro fbo ext hmem
    rw [hcalls, hget _ hi] at hmem
    simp at hmem
    exact hmem.1
  · intro w j r hmem
    rw [hcalls] at hmem
    simp at hmem
    exact hmem.2.1

theorem draw_uses_acquired_index_witness :
    framebuffers_init { engine_ready with framebuffers := [] } (fun _ => 0) =
      Except.ok engine_ready ∧
    frame_ok.swapchain_image_index < engine_ready.swapchain_image_count ∧
    frame_ok.all_ok ∧
    ∃ fb, engine_ready.framebuffers[frame_ok.swapchain_image_index]? = some fb ∧
      fb.attachment = frame_ok.swapchain_image_index ∧
      Call.vkCmdBeginRenderPass (some fb) engine_ready.window ∈
        (engine_draw (fun x => x) (fun x => x) engine_ready frame_ok 0).calls ∧
      Call.vkQueuePresentKHR SyncObj.render_sema frame_ok.swapchain_image_index VK_SUCCESS ∈
        (engine_draw (fun x => x) (fun x => x) engine_ready frame_ok 0).calls ∧
      (∀ fbo ext, Call.vkCmdBeginRenderPass fbo ext ∈
        (engine_draw (fun x => x) (fun x => x) engine_ready frame_ok 0).calls → fbo = some fb) ∧
      (∀ w j r, Call.vkQueuePresentKHR w j r ∈
        (engine_draw (fun x => x) (fun x => x) engine_ready frame_ok 0).calls →
        j = frame_ok.swapchain_image_index) :=
  ⟨rfl, by decide, by simp [DrawReturns.all_ok, frame_ok, VK_SUCCESS],
   draw_uses_acquired_index (fun x => x) (fun x => x)
     { engine_ready with framebuffers := [] } engine_ready (fun _ => 0) frame_ok 0 rfl
     (by decide) (by simp [DrawReturns.all_ok, frame_ok, VK_SUCCESS])⟩

/-! ## Lemmas on `swapchain_init` and `engine_init` -/

theorem find_surface_format_found (l : List VkSurfaceFormatKHR) (i : Nat)
    (sf : VkSurfaceFormatKHR)
    (h : ∃ f ∈ l, f.format = VK_FORMAT_B8G8R8A8_UNORM ∧
      f.colorSpace = VK_COLOR_SPACE_SRGB_NONLINEAR_KHR) :
    (find_surface_format l i sf).1 < i + l.length ∧
    (find_surface_format l i sf).2.format = VK_FORMAT_B8G8R8A8_UNORM ∧
    (find_surface_format l i sf).2.colorSpace = VK_COLOR_SPACE_SRGB_NONLINEAR_KHR := by
  induction l generalizing i with
  | nil => simp at h
  | cons f rest ih =>
    simp only [find_surface_format]
    split_ifs with hf
    · exact ⟨by simp, hf.1, hf.2⟩
    · have h2 : ∃ g ∈ rest, g.format = VK_FORMAT_B8G8R8A8_UNORM ∧
          g.colorSpace = VK_COLOR_SPACE_SRGB_NONLINEAR_KHR := by
        obtain ⟨g, hg, hg2⟩ := h
        rcases List.mem_cons.1 hg with rfl | hg3
        · exact absurd hg2 hf
        · exact ⟨g, hg3, hg2⟩
      obtain ⟨h3, h4⟩ := ih (i + 1) h2
      exact ⟨by simp only [List.length_cons]; omega, h4⟩

theorem find_surface_format_absent (l : List VkSurfaceFormatKHR) (i : Nat)
    (sf : VkSurfaceFormatKHR)
    (h : ¬ ∃ f ∈ l, f.format = VK_FORMAT_B8G8R8A8_UNORM ∧
      f.colorSpace = VK_COLOR_SPACE_SRGB_NONLINEAR_KHR) :
    find_surface_format l i sf = (i + l.length, sf) := by
  induction l generalizing i with
  | nil => simp [find_surface_format]
  | cons f rest ih =>
    simp only [find_surface_format]
    split_ifs with hf
    · exact absurd ⟨f, by simp, hf⟩ h
    · rw [ih (i + 1) (fun ⟨g, hg, hg2⟩ => h ⟨g, by simp [hg], hg2⟩)]
      simp only [List.length_cons]
      congr 1
      omega

theorem swapchain_create_info_of_queries_pass (env : SwapchainEnv) (h : env.queries_pass) :
    swapchain_create_info env =
      if env.surface_capabilities.maxImageCount < 2 ∧ env.surface_capabilities.maxImageCount ≠ 0
      then Except.error Fatal.max_image_count
      else Except.ok
        { minImageCount := 2
          imageFormat := VK_FORMAT_B8G8R8A8_UNORM
          imageColorSpace := VK_COLOR_SPACE_SRGB_NONLINEAR_KHR
          imageExtent := choose_swapchain_extent env.surface_capabilities.currentExtent
          imageArrayLayers := 1
          preTransform := env.surface_capabilities.currentTransform
          presentMode := find_present_mode VK_PRESENT_MODE_FIFO_KHR env.present_modes
            VK_PRESENT_MODE_FIFO_KHR } := by
  obtain ⟨h1, h2, h3, h4, h5, h6⟩ := h
  obtain ⟨hlt, hfmt, hcs⟩ := find_surface_format_found env.surface_formats 0
    env.surface_format_uninit h6
  have hne : (find_surface_format env.surface_formats 0 env.surface_format_uninit).1 ≠
      env.surface_formats.length := by omega
  simp only [swapchain_create_info, h1, h2, h3, h4, h5, hne, hfmt, hcs, ne_eq,
    not_true_eq_false, if_false]

/-- C3: when the steps before it pass, the image-count check of `swapchain_init`
exits (message `surface_capabilities.maxImageCount < 2 && ...`) if the surface
reports `maxImageCount = 1`, and for `maxImageCount = 0` or `maxImageCount ≥ 2`
it passes and the `swapchain_ci` built for `vkCreateSwapchainKHR` has
`minImageCount = 2`.  Whatever the earlier steps do, with `maxImageCount = 1` no
`swapchain_ci` is reached, so `swapchain_init` exits before it creates the
swapchain. -/
theorem swapchain_image_count_check (env : SwapchainEnv) (h : env.queries_pass) :
    (env.surface_capabilities.maxImageCount = 1 →
      swapchain_create_info env = Except.error Fatal.max_image_count) ∧
    (env.surface_capabilities.maxImageCount = 0 ∨ 2 ≤ env.surface_capabilities.maxImageCount →
      ∃ ci, swapchain_create_info env = Except.ok ci ∧ ci.minImageCount = 2) ∧
    (∀ (F : Type) (e : Engine F) (env1 : SwapchainEnv),
      env1.surface_capabilities.maxImageCount = 1 →
      ∃ f, swapchain_create_info env1 = Except.error f ∧ swapchain_init e env1 = Except.error f ∧
        ∀ r, f ≠ Fatal.vk_check Api.vkCreateSwapchainKHR r) := by
  refine ⟨?_, ?_, ?_⟩
  · intro hm
    rw [swapchain_create_info_of_queries_pass env h, hm]
    simp
  · intro hm
    rw [swapchain_create_info_of_queries_pass env h]
    have hc : ¬ (env.surface_capabilities.maxImageCount < 2 ∧
        env.surface_capabilities.maxImageCount ≠ 0) := by omega
    rw [if_neg hc]
    exact ⟨_, rfl, rfl⟩
  · intro F e env1 hm
    have hc : env1.surface_capabilities.maxImageCount < 2 ∧
        env1.surface_capabilities.maxImageCount ≠ 0 := by omega
    have key : ∃ f, swapchain_create_info env1 = Except.error f ∧
        ∀ r, f ≠ Fatal.vk_check Api.vkCreateSwapchainKHR r := by
      simp only [swapchain_create_info]
      split_ifs
      all_goals
        refine ⟨_, rfl, ?_⟩
        intro r hr
        cases hr
    obtain ⟨f, hf, hf2⟩ := key
    exact ⟨f, hf, by simp [swapchain_init, hf], hf2⟩

theorem swapchain_image_count_check_witness :
    (env_ok ⟨600, 600⟩).swapchain.queries_pass ∧
    ((env_ok ⟨600, 600⟩).swapchain.surface_capabilities.maxImageCount = 0 ∨
      2 ≤ (env_ok ⟨600, 600⟩).swapchain.surface_capabilities.maxImageCount →
      ∃ ci, swapchain_create_info (env_ok ⟨600, 600⟩).swapchain = Except.ok ci ∧
        ci.minImageCount = 2) :=
  ⟨by simp [SwapchainEnv.queries_pass, env_ok, VK_SUCCESS, VK_FORMAT_B8G8R8A8_UNORM,
      VK_COLOR_SPACE_SRGB_NONLINEAR_KHR],
   (swapchain_image_count_check (env_ok ⟨600, 600⟩).swapchain
     (by simp [SwapchainEnv.queries_pass, env_ok, VK_SUCCESS, VK_FORMAT_B8G8R8A8_UNORM,
      VK_COLOR_SPACE_SRGB_NONLINEAR_KHR])).2.1⟩

theorem swapchain_init_ok {F : Type} (e e2 : Engine F) (env : SwapchainEnv)
    (ci : VkSwapchainCreateInfoKHR) (h : swapchain_init e env = Except.ok (ci, e2)) :
    swapchain_create_info env = Except.ok ci ∧ e2.window = e.window ∧
    e2.swapchain_image_count = env.swapchain_image_count := by
  simp only [swapchain_init] at h
  cases hci : swapchain_create_info env with
  | error f => simp [hci] at h
  | ok ci1 =>
    simp only [hci] at h
    split_ifs at h
    cases hv : create_image_views env.vkCreateImageView env.swapchain_image_count 0 with
    | error f => simp [hv] at h
    | ok views =>
      simp only [hv] at h
      cases h
      exact ⟨rfl, rfl, rfl⟩

theorem engine_init_ok {F : Type} (e0 e : Engine F) (env : EngineEnv F)
    (h : (engine_init e0 env).result = Except.ok e) :
    (engine_init e0 env).entered =
      [Component.vulkan, Component.memory, Component.swapchain, Component.renderpass,
       Component.framebuffers, Component.command_pool, Component.sync_structures,
       Component.pipelines] ∧
    ∃ (e1 e2 : Engine F) (ci : VkSwapchainCreateInfoKHR),
      e1.window = ⟨WIDTH, HEIGHT⟩ ∧
      swapchain_init e1 env.swapchain = Except.ok (ci, e2) ∧
      framebuffers_init e2 env.vkCreateFramebuffer = Except.ok e := by
  simp only [engine_init] at h ⊢
  cases h1 : vulkan_init env.vulkan with
  | error f => simp [h1] at h
  | ok r1 =>
    obtain ⟨pd, gq⟩ := r1
    simp only [h1] at h ⊢
    cases h2 : memory_init env.memory with
    | error f => simp [h2] at h
    | ok r2 =>
      simp only [h2] at h ⊢
      cases h3 : swapchain_init _ env.swapchain with
      | error f => simp [h3] at h
      | ok r3 =>
        obtain ⟨ci, e2⟩ := r3
        simp only [h3] at h ⊢
        cases h4 : renderpass_init e2 env.vkCreateRenderPass with
        | error f => simp [h4] at h
        | ok r4 =>
          simp only [h4] at h ⊢
          cases h5 : framebuffers_init e2 env.vkCreateFramebuffer with
          | error f => simp [h5] at h
          | ok e3 =>
            simp only [h5] at h ⊢
            cases h6 : command_pool_init env.vkCreateCommandPool env.vkAllocateCommandBuffers with
            | error f => simp [h6] at h
            | ok r6 =>
              simp only [h6] at h ⊢
              cases h7 : sync_structures_init env.sync with
              | error f => simp [h7] at h
              | ok r7 =>
                simp only [h7] at h ⊢
                cases h8 : pipelines_init e3 env.pipelines with
                | error f => simp [h8] at h
                | ok r8 =>
                  simp only [h8] at h ⊢
                  cases h
                  exact ⟨rfl, _, e2, ci, rfl, h3, h5⟩

/-- C2: `engine_deinit` calls the component teardowns in the order pipelines
(Pipeline), sync structures (SyncGroup), command pool (CommandExecutor),
framebuffers then render pass (RenderTargetSet), swapchain (Swapchain), memory
(GeometryArena), vulkan (GraphicsDevice); and for every run of `engine_init`
that reaches its end, the components it constructed, in order, are the reverse
of that sequence. -/
theorem engine_deinit_reverses_init {F : Type} (e0 e : Engine F) (env : EngineEnv F)
    (h : (engine_init e0 env).result = Except.ok e) :
    engine_deinit e =
      [Component.pipelines, Component.sync_structures, Component.command_pool,
       Component.framebuffers, Component.renderpass, Component.swapchain,
       Component.memory, Component.vulkan] ∧
    (engine_deinit e).reverse = (engine_init e0 env).entered := by
  rw [(engine_init_ok e0 e env h).1]
  exact ⟨rfl, rfl⟩

theorem engine_deinit_reverses_init_witness :
    (engine_init blank_engine (env_ok ⟨600, 600⟩)).result = Except.ok engine_ready ∧
    engine_deinit engine_ready =
      [Component.pipelines, Component.sync_structures, Component.command_pool,
       Component.framebuffers, Component.renderpass, Component.swapchain,
       Component.memory, Component.vulkan] ∧
    (engine_deinit engine_ready).reverse =
      (engine_init blank_engine (env_ok ⟨600, 600⟩)).entered :=
  ⟨rfl, engine_deinit_reverses_init blank_engine engine_ready (env_ok ⟨600, 600⟩) rfl⟩

theorem swapchain_create_info_extent (env : SwapchainEnv) (ci : VkSwapchainCreateInfoKHR)
    (h : swapchain_create_info env = Except.ok ci) :
    ci.imageExtent = choose_swapchain_extent env.surface_capabilities.currentExtent := by
  simp only [swapchain_create_info] at h
  split_ifs at h
  cases h
  rfl

/-- C9, as the code has it: after `engine_init`, every framebuffer created by
`framebuffers_init` is 600 wide and 600 high, the fixed window size that
`engine_init` stores in `e->window`; the swapchain extent chosen by
`swapchain_init` is the surface-reported current extent, or 600x600 when the
surface reports the undefined-extent sentinel (width and height both
0xFFFFFFFF).  So the framebuffers have the size of the swapchain extent when
that extent is 600x600. -/
theorem framebuffer_extent_is_window {F : Type} (e0 e : Engine F) (env : EngineEnv F)
    (h : (engine_init e0 env).result = Except.ok e) :
    ∃ ci, swapchain_create_info env.swapchain = Except.ok ci ∧
      ci.imageExtent =
        (if env.swapchain.surface_capabilities.currentExtent.width = 0xFFFFFFFF ∧
            env.swapchain.surface_capabilities.currentExtent.height = 0xFFFFFFFF
         then ⟨600, 600⟩ else env.swapchain.surface_capabilities.currentExtent) ∧
      e.framebuffers.length = env.swapchain.swapchain_image_count ∧
      (∀ fb ∈ e.framebuffers, fb.width = 600 ∧ fb.height = 600) ∧
      (ci.imageExtent = ⟨600, 600⟩ →
        ∀ fb ∈ e.framebuffers,
          fb.width = ci.imageExtent.width ∧ fb.height = ci.imageExtent.height) := by
  obtain ⟨_, e1, e2, ci, hw, hsc, hfb⟩ := engine_init_ok e0 e env h
  obtain ⟨hci, hw2, hcount⟩ := swapchain_init_ok e1 e2 env.swapchain ci hsc
  obtain ⟨_, hlen, hget⟩ := framebuffers_init_get e2 e env.vkCreateFramebuffer hfb
  have hsize : ∀ fb ∈ e.framebuffers, fb.width = 600 ∧ fb.height = 600 := by
    intro fb hmem
    obtain ⟨j, hj⟩ := List.mem_iff_getElem?.1 hmem
    have hjlt : j < e2.swapchain_image_count := by
      rw [← hlen]
      exact (List.getElem?_eq_some.1 hj).1
    rw [hget j hjlt] at hj
    cases hj
    rw [hw2, hw]
    exact ⟨rfl, rfl⟩
  refine ⟨ci, hci, ?_, ?_, hsize, ?_⟩
  · rw [swapchain_create_info_extent env.swapchain ci hci]
    rfl
  · rw [hlen, hcount]
  · intro hext fb hmem
    rw [hext]
    exact hsize fb hmem

theorem framebuffer_extent_is_window_witness :
    (engine_init blank_engine (env_ok ⟨0xFFFFFFFF, 0xFFFFFFFF⟩)).result = Except.ok engine_ready ∧
    ∃ ci, swapchain_create_info (env_ok ⟨0xFFFFFFFF, 0xFFFFFFFF⟩).swapchain = Except.ok ci ∧
      ci.imageExtent =
        (if (env_ok ⟨0xFFFFFFFF, 0xFFFFFFFF⟩).swapchain.surface_capabilities.currentExtent.width =
              0xFFFFFFFF ∧
            (env_ok ⟨0xFFFFFFFF, 0xFFFFFFFF⟩).swapchain.surface_capabilities.currentExtent.height =
              0xFFFFFFFF
         then ⟨600, 600⟩
         else (env_ok ⟨0xFFFFFFFF, 0xFFFFFFFF⟩).swapchain.surface_capabilities.currentExtent) ∧
      engine_ready.framebuffers.length =
        (env_ok ⟨0xFFFFFFFF, 0xFFFFFFFF⟩).swapchain.swapchain_image_count ∧
      (∀ fb ∈ engine_ready.framebuffers, fb.width = 600 ∧ fb.height = 600) ∧
      (ci.imageExtent = ⟨600, 600⟩ →
        ∀ fb ∈ engine_ready.framebuffers,
          fb.width = ci.imageExtent.width ∧ fb.height = ci.imageExtent.height) :=
  ⟨rfl, framebuffer_extent_is_window blank_engine engine_ready
    (env_ok ⟨0xFFFFFFFF, 0xFFFFFFFF⟩) rfl⟩

/-- C9, counterexample: on a surface whose current extent is 800x600,
`engine_init` runs to its end, `swapchain_init` chooses the swapchain extent
800x600, and the two framebuffers are created 600 wide and 600 high. -/
theorem framebuffer_extent_counterexample :
    (engine_init blank_engine (env_ok ⟨800, 600⟩)).result = Except.ok engine_ready ∧
    swapchain_create_info (env_ok ⟨800, 600⟩).swapchain =
      Except.ok
        { minImageCount := 2, imageFormat := 44, imageColorSpace := 0
          imageExtent := { width := 800, height := 600 }
          imageArrayLayers := 1, preTransform := 1, presentMode := 2 } ∧
    engine_ready.framebuffers =
      [{ attachment := 0, width := 600, height := 600, layers := 1 },
       { attachment := 1, width := 600, height := 600, layers := 1 }] :=
  ⟨rfl, rfl, rfl⟩

/-- C5: on a device with two host-visible, host-coherent memory types allowed by
the mask, type 0 on a heap of 256 MiB and type 1 on a heap of 16 GiB,
`memory_init` chooses type 0: the loop leaves at the first accepted type, and
the type on the larger heap is never looked at. -/
theorem memory_init_takes_first_type :
    memory_init (env_ok ⟨600, 600⟩).memory =
      Except.ok { memoryTypeIndex := 0, allocationSize := 2048, mapped_size := 2048 } ∧
    (env_ok ⟨600, 600⟩).memory.mem_prop.memoryTypes =
      [{ propertyFlags := 0x7, heapIndex := 0 }, { propertyFlags := 0x6, heapIndex := 1 }] ∧
    memory_type_qualifies (env_ok ⟨600, 600⟩).memory.memoryTypeBits 0
      { propertyFlags := 0x7, heapIndex := 0 } = true ∧
    memory_type_qualifies (env_ok ⟨600, 600⟩).memory.memoryTypeBits 1
      { propertyFlags := 0x6, heapIndex := 1 } = true ∧
    heap_size_of (env_ok ⟨600, 600⟩).memory.mem_prop { propertyFlags := 0x7, heapIndex := 0 } =
      268435456 ∧
    heap_size_of (env_ok ⟨600, 600⟩).memory.mem_prop { propertyFlags := 0x6, heapIndex := 1 } =
      17179869184 :=
  ⟨rfl, rfl, rfl, rfl, rfl, rfl⟩

/-! ## Lemmas on `vulkan_init` -/

theorem first_index_eq_some_iff {α : Type} (p : α → Bool) (l : List α) (i k : Nat) :
    first_index p l i = some k ↔ ∃ j, k = i + j ∧ IsFirst p l j := by
  induction l generalizing i with
  | nil =>
    simp only [first_index, IsFirst]
    constructor
    · intro h; cases h
    · rintro ⟨j, _, ⟨x, hx, _⟩, _⟩
      simp at hx
  | cons x xs ih =>
    simp only [first_index]
    by_cases hp : p x = true
    · rw [if_pos hp]
      constructor
      · intro h
        cases h
        exact ⟨0, rfl, ⟨x, by simp, hp⟩, fun j hj => absurd hj (Nat.not_lt_zero j)⟩
      · rintro ⟨j, hk, _, hmin⟩
        cases j with
        | zero => simp [hk]
        | succ j =>
          have := hmin 0 (Nat.succ_pos j) x (by simp)
          rw [hp] at this
          cases this
    · rw [if_neg hp, ih]
      constructor
      · rintro ⟨j, hk, ⟨y, hy, hpy⟩, hmin⟩
        refine ⟨j + 1, by omega, ⟨y, by simpa using hy, hpy⟩, ?_⟩
        intro j1 hj1 z hz
        cases j1 with
        | zero =>
          simp at hz
          subst hz
          simpa using hp
        | succ j1 => exact hmin j1 (by omega) z (by simpa using hz)
      · rintro ⟨j, hk, ⟨y, hy, hpy⟩, hmin⟩
        cases j with
        | zero =>
          simp at hy
          subst hy
          exact absurd hpy hp
        | succ j =>
          refine ⟨j, by omega, ⟨y, by simpa using hy, hpy⟩, ?_⟩
          intro j1 hj1 z hz
          exact hmin (j1 + 1) (by omega) z (by simpa using hz)

theorem first_index_eq_none_iff {α : Type} (p : α → Bool) (l : List α) (i : Nat) :
    first_index p l i = none ↔ ∀ x ∈ l, p x = false := by
  induction l generalizing i with
  | nil => simp [first_index]
  | cons x xs ih =>
    simp only [first_index]
    by_cases hp : p x = true
    · rw [if_pos hp]
      simp [hp]
    · rw [if_neg hp, ih]
      simp at hp
      simp [hp]

theorem first_index_lt {α : Type} (p : α → Bool) (l : List α) (i k : Nat)
    (h : first_index p l i = some k) : k < i + l.length := by
  obtain ⟨j, hk, ⟨x, hx, _⟩, _⟩ := (first_index_eq_some_iff p l i k).1 h
  have := (List.getElem?_eq_some.1 hx).1
  omega

theorem select_phys_device_eq (l : List PhysicalDevice) (i : Nat)
    (hok : ∀ d ∈ l, (surface_support_family0 d).1 = VK_SUCCESS) :
    select_phys_device l i = Except.ok (first_index PhysicalDevice.presents_on_family0 l i) := by
  induction l generalizing i with
  | nil => rfl
  | cons d rest ih =>
    have hd := hok d (by simp)
    simp only [select_phys_device, first_index, PhysicalDevice.presents_on_family0, hd, ne_eq,
      not_true_eq_false, if_false]
    split_ifs
    · rfl
    · exact ih (i + 1) (fun d1 hd1 => hok d1 (by simp [hd1]))

theorem select_queue_family_eq (l : List QueueFamily) (i s : Nat)
    (hok : ∀ q ∈ l, q.surface_support_ret = VK_SUCCESS) :
    select_queue_family l i s =
      Except.ok ((first_index QueueFamily.graphics_and_present l i).getD s) := by
  induction l generalizing i with
  | nil => rfl
  | cons q rest ih =>
    have hq := hok q (by simp)
    have hrest := ih (i + 1) (fun q1 hq1 => hok q1 (by simp [hq1]))
    simp only [select_queue_family, first_index, QueueFamily.graphics_and_present, hq, ne_eq,
      not_true_eq_false, if_false, hrest, Bool.and_eq_true, bne_iff_ne]
    by_cases h1 : q.queueFlags &&& VK_QUEUE_GRAPHICS_BIT = 0
    · simp [h1]
    · by_cases h2 : q.supported = true
      · simp [h1, h2]
      · simp [h1, h2]

theorem surface_support_family0_ok (d : PhysicalDevice)
    (h : ∀ q ∈ d.queue_families, q.surface_support_ret = VK_SUCCESS) :
    (surface_support_family0 d).1 = VK_SUCCESS := by
  unfold surface_support_family0
  cases hq : d.queue_families with
  | nil => rfl
  | cons q rest => exact h q (by simp [hq])

/-- The outcome of `vulkan_init` when every driver call succeeds, in closed form. -/
theorem vulkan_init_eq (env : VulkanEnv) (h : env.api_ok) :
    vulkan_init env =
      match first_index PhysicalDevice.presents_on_family0 env.phys_devices 0 with
      | none => Except.error Fatal.phys_device_null
      | some d =>
        match first_index QueueFamily.graphics_and_present
          (match env.phys_devices[d]? with
            | some dev => dev.queue_families
            | none => []) 0 with
        | none => Except.error Fatal.graphics_queue_family_max
        | some q => Except.ok (d, q) := by
  obtain ⟨h1, h2, h3, h4, h5, h6⟩ := h
  have hdev : ∀ d ∈ env.phys_devices, (surface_support_family0 d).1 = VK_SUCCESS :=
    fun d hd => surface_support_family0_ok d (h6 d hd).2
  simp only [vulkan_init, h1, h2, h3, h4, h5, ne_eq, not_true_eq_false, if_false,
    select_phys_device_eq env.phys_devices 0 hdev]
  cases hsel : first_index PhysicalDevice.presents_on_family0 env.phys_devices 0 with
  | none => rfl
  | some d =>
    simp only
    cases hget : env.phys_devices[d]? with
    | none =>
      simp [select_queue_family, first_index]
    | some dev =>
      have hmem : dev ∈ env.phys_devices := List.getElem?_mem hget
      simp only [select_queue_family_eq dev.queue_families 0 UINT32_MAX (h6 dev hmem).2]
      cases hq : first_index QueueFamily.graphics_and_present dev.queue_families 0 with
      | none => simp
      | some q =>
        have hlt := first_index_lt _ _ _ _ hq
        have hlen := (h6 dev hmem).1
        have hne : q ≠ UINT32_MAX := by omega
        simp [hne]

theorem isFirst_iff {α : Type} (p : α → Bool) (l : List α) (k : Nat) :
    IsFirst p l k ↔ first_index p l 0 = some k := by
  rw [first_index_eq_some_iff]
  constructor
  · intro h
    exact ⟨k, by omega, h⟩
  · rintro ⟨j, hk, hj⟩
    have : k = j := by omega
    rw [this]
    exact hj

theorem qualifies_eq_false_iff (dev : PhysicalDevice) :
    dev.qualifies = false ↔
      first_index QueueFamily.graphics_and_present dev.queue_families 0 = none := by
  rw [first_index_eq_none_iff]
  simp [PhysicalDevice.qualifies]

/-- C4, as the code has it: when every driver call succeeds, `vulkan_init` selects
the first device in enumeration order whose queue family 0 can present to the
surface, and in that device the first queue family that supports both graphics
operations and presentation.  It exits with `e->phys_device == VK_NULL_HANDLE`
exactly when queue family 0 of no device can present, and with
`e->graphics_queue_family == UINT32_MAX` exactly when the device selected in
that way has no queue family supporting both; later devices are not tried. -/
theorem vulkan_init_selection (env : VulkanEnv) (h : env.api_ok) :
    (∀ d q, vulkan_init env = Except.ok (d, q) ↔
      IsFirst PhysicalDevice.presents_on_family0 env.phys_devices d ∧
      ∃ dev, env.phys_devices[d]? = some dev ∧
        IsFirst QueueFamily.graphics_and_present dev.queue_families q) ∧
    (vulkan_init env = Except.error Fatal.phys_device_null ↔
      ∀ dev ∈ env.phys_devices, dev.presents_on_family0 = false) ∧
    (vulkan_init env = Except.error Fatal.graphics_queue_family_max ↔
      ∃ d dev, IsFirst PhysicalDevice.presents_on_family0 env.phys_devices d ∧
        env.phys_devices[d]? = some dev ∧ dev.qualifies = false) := by
  rw [vulkan_init_eq env h]
  simp only [isFirst_iff, qualifies_eq_false_iff, ← first_index_eq_none_iff _ _ 0]
  cases hsel : first_index PhysicalDevice.presents_on_family0 env.phys_devices 0 with
  | none => simp
  | some d0 =>
    obtain ⟨⟨dev0, hget, _⟩, _⟩ := (isFirst_iff _ _ _).2 hsel
    simp only [hget]
    cases hq : first_index QueueFamily.graphics_and_present dev0.queue_families 0 with
    | none =>
      refine ⟨?_, by simp, ?_⟩
      · intro d q
        constructor
        · intro hc; cases hc
        · rintro ⟨hd, dev, hdev, hfq⟩
          cases hd
          rw [hget] at hdev
          cases hdev
          rw [hq] at hfq
          cases hfq
      · simp only [true_iff]
        exact ⟨d0, dev0, rfl, hget, hq⟩
    | some q0 =>
      refine ⟨?_, by simp, ?_⟩
      · intro d q
        constructor
        · intro hc
          cases hc
          exact ⟨rfl, dev0, hget, hq⟩
        · rintro ⟨hd, dev, hdev, hfq⟩
          cases hd
          rw [hget] at hdev
          cases hdev
          rw [hq] at hfq
          cases hfq
          rfl
      · constructor
        · intro hc; cases hc
        · rintro ⟨d, dev, hd, hdev, hnone⟩
          cases hd
          rw [hget] at hdev
          cases hdev
          rw [hq] at hnone
          cases hnone

theorem vulkan_init_selection_witness :
    (env_ok ⟨600, 600⟩).vulkan.api_ok ∧
    (∀ d q, vulkan_init (env_ok ⟨600, 600⟩).vulkan = Except.ok (d, q) ↔
      IsFirst PhysicalDevice.presents_on_family0 (env_ok ⟨600, 600⟩).vulkan.phys_devices d ∧
      ∃ dev, (env_ok ⟨600, 600⟩).vulkan.phys_devices[d]? = some dev ∧
        IsFirst QueueFamily.graphics_and_present dev.queue_families q) ∧
    vulkan_init (env_ok ⟨600, 600⟩).vulkan = Except.ok (0, 0) :=
  ⟨by simp [VulkanEnv.api_ok, env_ok, device_ok, VK_SUCCESS, UINT32_MAX],
   (vulkan_init_selection (env_ok ⟨600, 600⟩).vulkan
     (by simp [VulkanEnv.api_ok, env_ok, device_ok, VK_SUCCESS, UINT32_MAX])).1,
   rfl⟩

/-- C4, counterexample: a single device whose queue family 0 does graphics but
cannot present and whose queue family 1 does graphics and can present has a
queue family supporting both, yet `vulkan_init` exits with
`e->phys_device == VK_NULL_HANDLE`. -/
theorem vulkan_init_counterexample :
    device_present_on_family1.qualifies = true ∧
    vulkan_init
      { vkCreateInstance := 0, vkCreateXlibSurfaceKHR := 0
        vkEnumeratePhysicalDevices_count := 0, vkEnumeratePhysicalDevices := 0
        phys_devices := [device_present_on_family1], vkCreateDevice := 0 } =
      Except.error Fatal.phys_device_null :=
  ⟨rfl, rfl⟩

/-! ## Lemmas on the geometry -/

theorem PI_lt_pi : (PI : ℝ) < Real.pi := by
  unfold PI
  exact Real.pi_gt_d20

theorem pi_lt_PI_add : Real.pi < (PI : ℝ) + 1 / 10 ^ 20 := by
  unfold PI
  have := Real.pi_lt_d20
  norm_num at this ⊢
  linarith

theorem PI_gt_three : (3 : ℝ) < PI := by
  unfold PI
  norm_num

theorem dist_origin_half (θ : ℝ) : dist_origin (Real.sin θ / 2, Real.cos θ / 2) = 1 / 2 := by
  unfold dist_origin
  have h : (Real.sin θ / 2) ^ 2 + (Real.cos θ / 2) ^ 2 = (1 / 2) ^ 2 := by
    have := Real.sin_sq_add_cos_sq θ
    nlinarith
  simp only [h]
  exact Real.sqrt_sq (by norm_num)

theorem angle_at_origin_half (θ φ : ℝ) :
    angle_at_origin (Real.sin θ / 2, Real.cos θ / 2) (Real.sin φ / 2, Real.cos φ / 2) =
      Real.arccos (Real.cos (φ - θ)) := by
  unfold angle_at_origin
  rw [dist_origin_half, dist_origin_half, Real.cos_sub]
  congr 1
  simp only
  ring

theorem vertex_0 (cycle : ℝ) :
    vertex (engine_draw_vertices Real.sin Real.cos cycle) 0 =
      (Real.sin ((-cycle - 1 / 2) * 2 * PI) / 2, Real.cos ((-cycle - 1 / 2) * 2 * PI) / 2) := by
  simp only [vertex, engine_draw_vertices]
  norm_num

theorem vertex_1 (cycle : ℝ) :
    vertex (engine_draw_vertices Real.sin Real.cos cycle) 1 =
      (Real.sin ((-cycle - 1 / 2 + 1 / 3) * 2 * PI) / 2,
       Real.cos ((-cycle - 1 / 2 + 1 / 3) * 2 * PI) / 2) := by
  simp only [vertex, engine_draw_vertices]
  norm_num

theorem vertex_2 (cycle : ℝ) :
    vertex (engine_draw_vertices Real.sin Real.cos cycle) 2 =
      (Real.sin ((-cycle - 1 / 2 + 2 / 3) * 2 * PI) / 2,
       Real.cos ((-cycle - 1 / 2 + 2 / 3) * 2 * PI) / 2) := by
  simp only [vertex, engine_draw_vertices]
  norm_num

theorem angle_vertices_0_1 (cycle : ℝ) :
    angle_at_origin (vertex (engine_draw_vertices Real.sin Real.cos cycle) 0)
      (vertex (engine_draw_vertices Real.sin Real.cos cycle) 1) = 2 * PI / 3 := by
  rw [vertex_0, vertex_1, angle_at_origin_half]
  have h : (-cycle - 1 / 2 + 1 / 3) * 2 * PI - (-cycle - 1 / 2) * 2 * PI = 2 * PI / 3 := by ring
  rw [h]
  have h1 := PI_gt_three
  have h2 := PI_lt_pi
  exact Real.arccos_cos (by linarith) (by linarith)

theorem angle_vertices_1_2 (cycle : ℝ) :
    angle_at_origin (vertex (engine_draw_vertices Real.sin Real.cos cycle) 1)
      (vertex (engine_draw_vertices Real.sin Real.cos cycle) 2) = 2 * PI / 3 := by
  rw [vertex_1, vertex_2, angle_at_origin_half]
  have h : (-cycle - 1 / 2 + 2 / 3) * 2 * PI - (-cycle - 1 / 2 + 1 / 3) * 2 * PI =
      2 * PI / 3 := by ring
  rw [h]
  have h1 := PI_gt_three
  have h2 := PI_lt_pi
  exact Real.arccos_cos (by linarith) (by linarith)

theorem angle_vertices_2_0 (cycle : ℝ) :
    angle_at_origin (vertex (engine_draw_vertices Real.sin Real.cos cycle) 2)
      (vertex (engine_draw_vertices Real.sin Real.cos cycle) 0) =
      2 * Real.pi - 4 * PI / 3 := by
  rw [vertex_2, vertex_0, angle_at_origin_half]
  have h : (-cycle - 1 / 2) * 2 * PI - (-cycle - 1 / 2 + 2 / 3) * 2 * PI =
      -(4 * PI / 3) := by ring
  rw [h, Real.cos_neg, ← Real.cos_two_pi_sub]
  have h1 := PI_gt_three
  have h2 := PI_lt_pi
  have h3 := pi_lt_PI_add
  exact Real.arccos_cos (by linarith) (by norm_num at h3; linarith)

/-- C10, as the code has it: with `sin` and `cos` the exact real functions and the
arithmetic exact, for every phase value `cycle` (in particular for every
`cycle` in [0,1)) each of the three vertices computed by `engine_draw` lies at
distance exactly 0.5 from the origin, and any two of them are 120 degrees apart
as seen from the origin to within 1e-5 radians: the angle between vertices 0
and 1 and between vertices 1 and 2 is `2 * PI / 3` for the constant
`PI = 3.14159265358979323846` of the source, and the angle between vertices 2
and 0 is `2 * π - 4 * PI / 3`. -/
theorem vertices_on_circle (cycle : ℝ) :
    dist_origin (vertex (engine_draw_vertices Real.sin Real.cos cycle) 0) = 0.5 ∧
    dist_origin (vertex (engine_draw_vertices Real.sin Real.cos cycle) 1) = 0.5 ∧
    dist_origin (vertex (engine_draw_vertices Real.sin Real.cos cycle) 2) = 0.5 ∧
    angle_at_origin (vertex (engine_draw_vertices Real.sin Real.cos cycle) 0)
      (vertex (engine_draw_vertices Real.sin Real.cos cycle) 1) = 2 * PI / 3 ∧
    angle_at_origin (vertex (engine_draw_vertices Real.sin Real.cos cycle) 1)
      (vertex (engine_draw_vertices Real.sin Real.cos cycle) 2) = 2 * PI / 3 ∧
    angle_at_origin (vertex (engine_draw_vertices Real.sin Real.cos cycle) 2)
      (vertex (engine_draw_vertices Real.sin Real.cos cycle) 0) = 2 * Real.pi - 4 * PI / 3 ∧
    |angle_at_origin (vertex (engine_draw_vertices Real.sin Real.cos cycle) 0)
      (vertex (engine_draw_vertices Real.sin Real.cos cycle) 1) - 2 * Real.pi / 3| ≤ 1e-5 ∧
    |angle_at_origin (vertex (engine_draw_vertices Real.sin Real.cos cycle) 1)
      (vertex (engine_draw_vertices Real.sin Real.cos cycle) 2) - 2 * Real.pi / 3| ≤ 1e-5 ∧
    |angle_at_origin (vertex (engine_draw_vertices Real.sin Real.cos cycle) 2)
      (vertex (engine_draw_vertices Real.sin Real.cos cycle) 0) - 2 * Real.pi / 3| ≤ 1e-5 := by
  have h1 := PI_lt_pi
  have h2 := PI_gt_three
  have h3 := pi_lt_PI_add
  norm_num at h3
  refine ⟨?_, ?_, ?_, angle_vertices_0_1 cycle, angle_vertices_1_2 cycle,
    angle_vertices_2_0 cycle, ?_, ?_, ?_⟩
  · rw [vertex_0, dist_origin_half]; norm_num
  · rw [vertex_1, dist_origin_half]; norm_num
  · rw [vertex_2, dist_origin_half]; norm_num
  · rw [angle_vertices_0_1, abs_le]
    constructor <;> norm_num <;> linarith
  · rw [angle_vertices_1_2, abs_le]
    constructor <;> norm_num <;> linarith
  · rw [angle_vertices_2_0, abs_le]
    constructor <;> norm_num <;> linarith

/-- C10, counterexample: at `cycle = 0`, with `sin` and `cos` the exact real
functions, the angle between vertices 0 and 1 as seen from the origin is not
`2 * π / 3`: it is `2 * PI / 3` for the constant `PI` of the source, which is
smaller than `π`. -/
theorem vertices_angle_counterexample :
    angle_at_origin (vertex (engine_draw_vertices Real.sin Real.cos 0) 0)
      (vertex (engine_draw_vertices Real.sin Real.cos 0) 1) ≠ 2 * Real.pi / 3 := by
  rw [angle_vertices_0_1]
  have h := PI_lt_pi
  intro hc
  linarith

/-! ## Lemmas on the vertices at `cycle = 0` -/

theorem abs_sin_sub_sin_le (a b : ℝ) : |Real.sin a - Real.sin b| ≤ |a - b| := by
  rw [Real.sin_sub_sin, abs_mul, abs_mul]
  have h1 : |Real.sin ((a - b) / 2)| ≤ |(a - b) / 2| := Real.abs_sin_le_abs
  have h2 : |Real.cos ((a + b) / 2)| ≤ 1 := Real.abs_cos_le_one _
  have h3 : |(a - b) / 2| = |a - b| / 2 := by
    rw [abs_div]
    norm_num
  have h4 : (0 : ℝ) ≤ |Real.sin ((a - b) / 2)| := abs_nonneg _
  have h5 : (0 : ℝ) ≤ |Real.cos ((a + b) / 2)| := abs_nonneg _
  have h6 : |(2 : ℝ)| = 2 := by norm_num
  rw [h6]
  nlinarith

theorem abs_cos_sub_cos_le (a b : ℝ) : |Real.cos a - Real.cos b| ≤ |a - b| := by
  rw [Real.cos_sub_cos, abs_mul, abs_mul]
  have h1 : |Real.sin ((a - b) / 2)| ≤ |(a - b) / 2| := Real.abs_sin_le_abs
  have h2 : |Real.sin ((a + b) / 2)| ≤ 1 := Real.abs_sin_le_one _
  have h3 : |(a - b) / 2| = |a - b| / 2 := by
    rw [abs_div]
    norm_num
  have h4 : (0 : ℝ) ≤ |Real.sin ((a - b) / 2)| := abs_nonneg _
  have h5 : (0 : ℝ) ≤ |Real.sin ((a + b) / 2)| := abs_nonneg _
  have h6 : |(-2 : ℝ)| = 2 := by norm_num
  rw [h6]
  nlinarith

theorem abs_pi_sub_PI : |Real.pi - (PI : ℝ)| ≤ 1 / 10 ^ 20 := by
  have h1 := PI_lt_pi
  have h2 := pi_lt_PI_add
  rw [abs_le]
  constructor <;> linarith

theorem sqrt_three_bounds : (1.732 : ℝ) < Real.sqrt 3 ∧ Real.sqrt 3 < 1.7321 := by
  constructor
  · rw [Real.lt_sqrt (by norm_num)]
    norm_num
  · rw [Real.sqrt_lt' (by norm_num)]
    norm_num

theorem sin_neg_PI_small : |Real.sin (-(PI : ℝ))| ≤ 1 / 10 ^ 20 := by
  have h := abs_sin_sub_sin_le (-(PI : ℝ)) (-Real.pi)
  rw [Real.sin_neg Real.pi, Real.sin_pi, neg_zero, sub_zero] at h
  have h2 : -(PI : ℝ) - -Real.pi = Real.pi - PI := by ring
  rw [h2] at h
  exact le_trans h abs_pi_sub_PI

theorem cos_neg_PI_near : |Real.cos (-(PI : ℝ)) - (-1)| ≤ 1 / 10 ^ 20 := by
  have h := abs_cos_sub_cos_le (-(PI : ℝ)) (-Real.pi)
  rw [Real.cos_neg Real.pi, Real.cos_pi] at h
  have h2 : -(PI : ℝ) - -Real.pi = Real.pi - PI := by ring
  rw [h2] at h
  exact le_trans h abs_pi_sub_PI

theorem sin_PI_div_three_near : |Real.sin ((PI : ℝ) / 3) - Real.sqrt 3 / 2| ≤ 1 / 10 ^ 20 := by
  have h := abs_sin_sub_sin_le ((PI : ℝ) / 3) (Real.pi / 3)
  rw [Real.sin_pi_div_three] at h
  have h2 : |(PI : ℝ) / 3 - Real.pi / 3| ≤ 1 / 10 ^ 20 := by
    have h3 := abs_pi_sub_PI
    rw [abs_le] at h3 ⊢
    constructor <;> linarith [h3.1, h3.2]
  exact le_trans h h2

theorem cos_PI_div_three_near : |Real.cos ((PI : ℝ) / 3) - 1 / 2| ≤ 1 / 10 ^ 20 := by
  have h := abs_cos_sub_cos_le ((PI : ℝ) / 3) (Real.pi / 3)
  rw [Real.cos_pi_div_three] at h
  have h2 : |(PI : ℝ) / 3 - Real.pi / 3| ≤ 1 / 10 ^ 20 := by
    have h3 := abs_pi_sub_PI
    rw [abs_le] at h3 ⊢
    constructor <;> linarith [h3.1, h3.2]
  exact le_trans h h2

/-- C11: for `cycle = 0`, with `sin` and `cos` the exact real functions and the
arithmetic exact, the three vertices computed by `engine_draw` are, in order,
within 1e-3 in each component of (0.0, -0.5), (-0.433, 0.25) and
(0.433, 0.25). -/
theorem vertices_at_cycle_zero :
    |(vertex (engine_draw_vertices Real.sin Real.cos 0) 0).1 - 0.0| ≤ 1e-3 ∧
    |(vertex (engine_draw_vertices Real.sin Real.cos 0) 0).2 - (-0.5)| ≤ 1e-3 ∧
    |(vertex (engine_draw_vertices Real.sin Real.cos 0) 1).1 - (-0.433)| ≤ 1e-3 ∧
    |(vertex (engine_draw_vertices Real.sin Real.cos 0) 1).2 - 0.25| ≤ 1e-3 ∧
    |(vertex (engine_draw_vertices Real.sin Real.cos 0) 2).1 - 0.433| ≤ 1e-3 ∧
    |(vertex (engine_draw_vertices Real.sin Real.cos 0) 2).2 - 0.25| ≤ 1e-3 := by
  have ha : (-(0 : ℝ) - 1 / 2) * 2 * PI = -PI := by ring
  have hb : (-(0 : ℝ) - 1 / 2 + 1 / 3) * 2 * PI = -(PI / 3) := by ring
  have hc : (-(0 : ℝ) - 1 / 2 + 2 / 3) * 2 * PI = PI / 3 := by ring
  rw [vertex_0, vertex_1, vertex_2, ha, hb, hc, Real.sin_neg (PI / 3), Real.cos_neg (PI / 3)]
  have h1 := abs_le.1 sin_neg_PI_small
  have h2 := abs_le.1 cos_neg_PI_near
  have h3 := abs_le.1 sin_PI_div_three_near
  have h4 := abs_le.1 cos_PI_div_three_near
  have h5 := sqrt_three_bounds
  norm_num at h1 h2 h3 h4 h5
  simp only [abs_le]
  refine ⟨⟨?_, ?_⟩, ⟨?_, ?_⟩, ⟨?_, ?_⟩, ⟨?_, ?_⟩, ⟨?_, ?_⟩, ⟨?_, ?_⟩⟩ <;> norm_num <;>
    linarith [h1.1, h1.2, h2.1, h2.2, h3.1, h3.2, h4.1, h4.2, h5.1, h5.2]

/-! ## Lemmas on `load_shader_module` -/

theorem load_shader_module_eq (file : ShaderFile) :
    load_shader_module file =
      match shader_module_create_info file with
      | Except.error f => Except.error f
      | Except.ok ci =>
        if file.vkCreateShaderModule ≠ VK_SUCCESS then
          Except.error (Fatal.vk_check Api.vkCreateShaderModule file.vkCreateShaderModule)
        else Except.ok ci := by
  simp only [load_shader_module, shader_module_create_info]
  cases file.contents with
  | none => rfl
  | some bytes =>
    simp only
    split_ifs <;> rfl

/-- C12: `load_shader_module` exits with `Failed to open file` when the file cannot be
opened and with `Invalid SPIR-V code` when its byte length is not a multiple
of 4, in both cases before `shader_module_ci` is built and
`vkCreateShaderModule` is called.  For a file that opens, whose byte length is
a positive multiple of 4 and for which `malloc` returns a buffer, it reaches
`vkCreateShaderModule` with `codeSize` equal to the byte length and `pCode`
holding the whole file, and returns when that call succeeds. -/
theorem load_shader_module_checks (file : ShaderFile) :
    (file.contents = none →
      shader_module_create_info file = Except.error Fatal.open_file ∧
      load_shader_module file = Except.error Fatal.open_file) ∧
    (∀ bytes, file.contents = some bytes → bytes.length % 4 ≠ 0 →
      shader_module_create_info file = Except.error Fatal.invalid_spirv ∧
      load_shader_module file = Except.error Fatal.invalid_spirv) ∧
    (∀ bytes, file.contents = some bytes → 0 < bytes.length → bytes.length % 4 = 0 →
      file.malloc_ok = true →
      shader_module_create_info file =
        Except.ok { codeSize := bytes.length, pCode := bytes } ∧
      (file.vkCreateShaderModule = VK_SUCCESS →
        load_shader_module file = Except.ok { codeSize := bytes.length, pCode := bytes })) := by
  refine ⟨?_, ?_, ?_⟩
  · intro h
    have h1 : shader_module_create_info file = Except.error Fatal.open_file := by
      simp only [shader_module_create_info, h]
    exact ⟨h1, by rw [load_shader_module_eq, h1]⟩
  · intro bytes h hlen
    have h1 : shader_module_create_info file = Except.error Fatal.invalid_spirv := by
      simp only [shader_module_create_info, h, hlen, ne_eq, not_false_eq_true, if_true]
    exact ⟨h1, by rw [load_shader_module_eq, h1]⟩
  · intro bytes h _ hlen hm
    have h1 : shader_module_create_info file =
        Except.ok { codeSize := bytes.length, pCode := bytes } := by
      simp only [shader_module_create_info, h, hlen, hm, ne_eq, not_true_eq_false, if_false,
        List.take_length]
      simp
    refine ⟨h1, ?_⟩
    intro hvk
    rw [load_shader_module_eq, h1]
    simp [hvk]

theorem load_shader_module_checks_witness :
    shader_file_ok.contents = some [3, 2, 35, 7, 0, 0, 1, 0] ∧
    shader_module_create_info shader_file_ok =
      Except.ok { codeSize := [3, 2, 35, 7, 0, 0, 1, 0].length,
                  pCode := [3, 2, 35, 7, 0, 0, 1, 0] } ∧
    (shader_file_ok.vkCreateShaderModule = VK_SUCCESS →
      load_shader_module shader_file_ok =
        Except.ok { codeSize := [3, 2, 35, 7, 0, 0, 1, 0].length,
                    pCode := [3, 2, 35, 7, 0, 0, 1, 0] }) :=
  ⟨rfl, (load_shader_module_checks shader_file_ok).2.2 [3, 2, 35, 7, 0, 0, 1, 0] rfl
    (by decide) (by decide) rfl⟩

/-- C13: when the two format queries succeed, the format selection of
`swapchain_init` passes exactly when the list of surface formats holds the pair
(`VK_FORMAT_B8G8R8A8_UNORM`, `VK_COLOR_SPACE_SRGB_NONLINEAR_KHR`).  With the
pair in the list every `swapchain_ci` the function builds carries exactly that
format and colour space, and one is built when the later queries and the
image-count check pass; with the pair absent the function exits with
`i == format_count`, whatever other formats the list holds. -/
theorem swapchain_format_selection (env : SwapchainEnv)
    (h1 : env.vkGetPhysicalDeviceSurfaceFormatsKHR_count = VK_SUCCESS)
    (h2 : env.vkGetPhysicalDeviceSurfaceFormatsKHR = VK_SUCCESS) :
    ((∃ f ∈ env.surface_formats, f.format = VK_FORMAT_B8G8R8A8_UNORM ∧
        f.colorSpace = VK_COLOR_SPACE_SRGB_NONLINEAR_KHR) →
      swapchain_create_info env ≠ Except.error Fatal.format_not_found ∧
      (∀ ci, swapchain_create_info env = Except.ok ci →
        ci.imageFormat = VK_FORMAT_B8G8R8A8_UNORM ∧
        ci.imageColorSpace = VK_COLOR_SPACE_SRGB_NONLINEAR_KHR) ∧
      (env.vkGetPhysicalDeviceSurfacePresentModesKHR_count = VK_SUCCESS →
        env.vkGetPhysicalDeviceSurfacePresentModesKHR = VK_SUCCESS →
        env.vkGetPhysicalDeviceSurfaceCapabilitiesKHR = VK_SUCCESS →
        ¬ (env.surface_capabilities.maxImageCount < 2 ∧
          env.surface_capabilities.maxImageCount ≠ 0) →
        ∃ ci, swapchain_create_info env = Except.ok ci ∧
          ci.imageFormat = VK_FORMAT_B8G8R8A8_UNORM ∧
          ci.imageColorSpace = VK_COLOR_SPACE_SRGB_NONLINEAR_KHR)) ∧
    ((¬ ∃ f ∈ env.surface_formats, f.format = VK_FORMAT_B8G8R8A8_UNORM ∧
        f.colorSpace = VK_COLOR_SPACE_SRGB_NONLINEAR_KHR) →
      swapchain_create_info env = Except.error Fatal.format_not_found ∧
      ∀ (F : Type) (e : Engine F), swapchain_init e env = Except.error Fatal.format_not_found) := by
  constructor
  · intro hex
    obtain ⟨hlt, hfmt, hcs⟩ := find_surface_format_found env.surface_formats 0
      env.surface_format_uninit hex
    have hne : (find_surface_format env.surface_formats 0 env.surface_format_uninit).1 ≠
        env.surface_formats.length := by omega
    refine ⟨?_, ?_, ?_⟩
    · simp only [swapchain_create_info, h1, h2, hne, ne_eq, not_true_eq_false, if_false]
      split_ifs <;> simp
    · intro ci hci
      simp only [swapchain_create_info, h1, h2, hne, ne_eq, not_true_eq_false, if_false] at hci
      split_ifs at hci
      cases hci
      exact ⟨hfmt, hcs⟩
    · intro h3 h4 h5 hm
      rw [swapchain_create_info_of_queries_pass env ⟨h1, h2, h3, h4, h5, hex⟩, if_neg hm]
      exact ⟨_, rfl, rfl, rfl⟩
  · intro hno
    have hfind := find_surface_format_absent env.surface_formats 0 env.surface_format_uninit hno
    have h3 : swapchain_create_info env = Except.error Fatal.format_not_found := by
      simp only [swapchain_create_info, h1, h2, hfind, ne_eq, not_true_eq_false, if_false,
        Nat.zero_add, if_true]
    exact ⟨h3, fun F e => by simp only [swapchain_init, h3]⟩

theorem swapchain_format_selection_witness :
    (env_ok ⟨600, 600⟩).swapchain.vkGetPhysicalDeviceSurfaceFormatsKHR_count = VK_SUCCESS ∧
    (env_ok ⟨600, 600⟩).swapchain.vkGetPhysicalDeviceSurfaceFormatsKHR = VK_SUCCESS ∧
    (∃ f ∈ (env_ok ⟨600, 600⟩).swapchain.surface_formats,
      f.format = VK_FORMAT_B8G8R8A8_UNORM ∧
      f.colorSpace = VK_COLOR_SPACE_SRGB_NONLINEAR_KHR) ∧
    ∃ ci, swapchain_create_info (env_ok ⟨600, 600⟩).swapchain = Except.ok ci ∧
      ci.imageFormat = VK_FORMAT_B8G8R8A8_UNORM ∧
      ci.imageColorSpace = VK_COLOR_SPACE_SRGB_NONLINEAR_KHR :=
  ⟨rfl, rfl, ⟨⟨44, 0⟩, by simp [env_ok], rfl, rfl⟩,
   ((swapchain_format_selection (env_ok ⟨600, 600⟩).swapchain rfl rfl).1
     ⟨⟨44, 0⟩, by simp [env_ok], rfl, rfl⟩).2.2 rfl rfl rfl (by decide)⟩

/-! ## Lemmas on the loops of creation and destruction -/

theorem mem_loop_up (k i j : Nat) : j ∈ loop_up k i ↔ i ≤ j ∧ j < i + k := by
  induction k generalizing i with
  | zero => simp [loop_up]
  | succ k ih =>
    simp only [loop_up, List.mem_cons, ih]
    omega

theorem mem_loop_down (n j : Nat) : j ∈ loop_down n ↔ j ≤ n := by
  induction n with
  | zero => simp [loop_down]
  | succ n ih =>
    simp only [loop_down, List.mem_cons, ih]
    omega

/-- C14: `engine_init` creates the instance and the surface and `engine_deinit`
destroys neither; and `engine_deinit` destroys the image view and the
framebuffer of slot `swapchain_image_count`, which `engine_init` does not
create.  On the engine that `engine_init` leaves on a swapchain of two images
the calls are as listed. -/
theorem engine_deinit_lifecycle_mismatch {F : Type} (e : Engine F) :
    (LifeCall.create Entity.vk_instance ∈ engine_init_calls e ∧
      LifeCall.destroy Entity.vk_instance ∉ engine_deinit_calls e) ∧
    (LifeCall.create Entity.surface ∈ engine_init_calls e ∧
      LifeCall.destroy Entity.surface ∉ engine_deinit_calls e) ∧
    (LifeCall.destroy (Entity.swapchain_image_view e.swapchain_image_count) ∈
        engine_deinit_calls e ∧
      LifeCall.create (Entity.swapchain_image_view e.swapchain_image_count) ∉
        engine_init_calls e) ∧
    (LifeCall.destroy (Entity.framebuffer e.swapchain_image_count) ∈ engine_deinit_calls e ∧
      LifeCall.create (Entity.framebuffer e.swapchain_image_count) ∉ engine_init_calls e) ∧
    (engine_init blank_engine (env_ok ⟨600, 600⟩)).result = Except.ok engine_ready ∧
    engine_init_calls engine_ready =
      [LifeCall.create Entity.vk_instance, LifeCall.create Entity.surface,
       LifeCall.create Entity.device,
       LifeCall.create Entity.buffer, LifeCall.create Entity.memory,
       LifeCall.create Entity.swapchain,
       LifeCall.create (Entity.swapchain_image_view 0),
       LifeCall.create (Entity.swapchain_image_view 1),
       LifeCall.create Entity.render_pass,
       LifeCall.create (Entity.framebuffer 0), LifeCall.create (Entity.framebuffer 1),
       LifeCall.create Entity.command_pool, LifeCall.create Entity.command_buffer,
       LifeCall.create Entity.render_fence, LifeCall.create Entity.present_sema,
       LifeCall.create Entity.render_sema,
       LifeCall.create Entity.triangle_frag_shader,
       LifeCall.create Entity.triangle_vert_shader,
       LifeCall.create Entity.triangle_pipeline_layout,
       LifeCall.create Entity.triangle_pipeline,
       LifeCall.destroy Entity.triangle_frag_shader,
       LifeCall.destroy Entity.triangle_vert_shader] ∧
    engine_deinit_calls engine_ready =
      [LifeCall.destroy Entity.triangle_pipeline,
       LifeCall.destroy Entity.triangle_pipeline_layout,
       LifeCall.destroy Entity.render_sema, LifeCall.destroy Entity.present_sema,
       LifeCall.destroy Entity.render_fence,
       LifeCall.destroy Entity.command_buffer, LifeCall.destroy Entity.command_pool,
       LifeCall.destroy (Entity.framebuffer 2), LifeCall.destroy (Entity.framebuffer 1),
       LifeCall.destroy (Entity.framebuffer 0),
       LifeCall.destroy Entity.render_pass,
       LifeCall.destroy (Entity.swapchain_image_view 2),
       LifeCall.destroy (Entity.swapchain_image_view 1),
       LifeCall.destroy (Entity.swapchain_image_view 0),
       LifeCall.destroy Entity.swapchain,
       LifeCall.destroy Entity.memory, LifeCall.destroy Entity.buffer,
       LifeCall.destroy Entity.device] := by
  refine ⟨⟨?_, ?_⟩, ⟨?_, ?_⟩, ⟨?_, ?_⟩, ⟨?_, ?_⟩, rfl, rfl, rfl⟩
  all_goals
    simp [engine_init_calls, engine_deinit_calls, engine_deinit, component_init_calls,
      component_deinit_calls, vulkan_init_calls, memory_init_calls, swapchain_init_calls,
      renderpass_init_calls, framebuffers_init_calls, command_pool_init_calls,
      sync_structures_init_calls, pipelines_init_calls, vulkan_deinit, memory_deinit,
      swapchain_deinit, renderpass_deinit, framebuffers_deinit, command_pool_deinit,
      sync_structures_deinit, pipelines_deinit, mem_loop_up, mem_loop_down]

/-- C15: for every engine, the loops of `swapchain_deinit` and `framebuffers_deinit`
start at `i = swapchain_image_count`, so each destroys the element of slot
`swapchain_image_count`, one past the last element of its array.  On the
engine that `engine_init` leaves on a swapchain of two images both arrays have
two elements, slot 2 lies outside them, and the loops visit the slots 2, 1, 0. -/
theorem deinit_loops_start_past_end {F : Type} (e : Engine F) :
    LifeCall.destroy (Entity.swapchain_image_view e.swapchain_image_count) ∈
      swapchain_deinit e ∧
    LifeCall.destroy (Entity.framebuffer e.swapchain_image_count) ∈ framebuffers_deinit e ∧
    (engine_init blank_engine (env_ok ⟨600, 600⟩)).result = Except.ok engine_ready ∧
    engine_ready.swapchain_image_count = 2 ∧
    engine_ready.swapchain_image_views.length = 2 ∧
    engine_ready.framebuffers.length = 2 ∧
    engine_ready.swapchain_image_views[2]? = none ∧
    engine_ready.framebuffers[2]? = none ∧
    swapchain_deinit engine_ready =
      [LifeCall.destroy (Entity.swapchain_image_view 2),
       LifeCall.destroy (Entity.swapchain_image_view 1),
       LifeCall.destroy (Entity.swapchain_image_view 0),
       LifeCall.destroy Entity.swapchain] ∧
    framebuffers_deinit engine_ready =
      [LifeCall.destroy (Entity.framebuffer 2), LifeCall.destroy (Entity.framebuffer 1),
       LifeCall.destroy (Entity.framebuffer 0)] := by
  refine ⟨?_, ?_, rfl, rfl, rfl, rfl, rfl, rfl, rfl, rfl⟩
  · simp [swapchain_deinit, mem_loop_down]
  · simp [framebuffers_deinit, mem_loop_down]

end XlibVulkan
